import Mathlib

/-!
# HSTLES go-sdk: app registry, provider allow-list and authentication middleware

A shallow embedding of `core_config/apps.go`, `shared_utilities/provider_validation.go`,
`shared_utilities/context.go`, `shared_utilities/auth_middleware.go`,
`shared_utilities/security.go`, `client_auth/client.go` (`ValidateSession`) and one proxy
handler of each of `client_auth` and `client_identity`, followed by theorems about them.

Conventions of the embedding:

* Go `string` is Lean `String`; `==` on Go strings is equality of Lean strings.
* A Go `error` result is an `Option`: `none` is the `nil` error.
* `log.Printf` calls of the registry lookups are not modelled (they do not influence any
  returned value); the log lines of the middleware are kept in the handler outcome.
* A Go `map[string]string` that is only ranged over is the list of its `(name, key)` entries
  in the order in which the `range` statement visits them; theorems quantify over every
  such list, hence over every iteration order.
* `url.ParseRequestURI` and `url.Parse` belong to Go's library: `IsValidURL`,
  `ValidateNextParameter` and `SecurityMiddleware` take the parser as a parameter and the
  theorems hold for every parser. `os.Getenv` is the parameter `getenv`.
* The headers that `http.Error` itself writes (`Content-Type`, `X-Content-Type-Options`) are
  not modelled.
-/

namespace GoSdk

/-! ## The parts of Go's `strings` package used by the validator -/

/-- Go `strings.Contains` on the characters of the two strings. -/
def containsChars : List Char → List Char → Bool
  | [], sub => sub.isEmpty
  | c :: cs, sub => sub.isPrefixOf (c :: cs) || containsChars cs sub

/-- Go `strings.Contains(s, substr)`. -/
def stringsContains (s substr : String) : Bool :=
  containsChars s.data substr.data

/-- Go `strings.ToLower(s)`, on the ASCII letters (the registry names are ASCII). -/
def stringsToLower (s : String) : String :=
  String.mk (s.data.map Char.toLower)

/-- Go `unicode.IsSpace`: the code points with the White_Space property. -/
def unicodeIsSpace (c : Char) : Bool :=
  let n := c.toNat
  (9 ≤ n && n ≤ 13) || n == 32 || n == 133 || n == 160 || n == 5760 ||
    (8192 ≤ n && n ≤ 8202) || n == 8232 || n == 8233 || n == 8239 || n == 8287 || n == 12288

/-- Go `strings.TrimSpace(s)`: leading and trailing white space removed. -/
def stringsTrimSpace (s : String) : String :=
  String.mk ((s.data.dropWhile unicodeIsSpace).reverse.dropWhile unicodeIsSpace).reverse

/-- Worker of `stringsSplit` for a non-empty separator: `skip` characters of a separator
that has just been matched are still to be dropped, `cur` is the current piece, reversed. -/
def splitChars (sep : List Char) : Nat → List Char → List Char → List (List Char)
  | _, cur, [] => [cur.reverse]
  | skip + 1, cur, _ :: cs => splitChars sep skip cur cs
  | 0, cur, c :: cs =>
    if sep.isPrefixOf (c :: cs) then cur.reverse :: splitChars sep (sep.length - 1) [] cs
    else splitChars sep 0 (c :: cur) cs

/-- Go `strings.Split(s, sep)`: the pieces of `s` between the occurrences of `sep`
(one piece per character when `sep` is empty). -/
def stringsSplit (s sep : String) : List String :=
  if sep.data.isEmpty then s.data.map (fun c => String.mk [c])
  else (splitChars sep.data 0 [] s.data).map String.mk

/-- Go `strings.Join(elems, sep)`. -/
def stringsJoin (elems : List String) (sep : String) : String :=
  sep.intercalate elems

/-! ## `core_config/apps.go` -/

/-- AppConfig holds the application-specific configurations. -/
structure AppConfig where
  Route : String
  AppName : String
  DisplayName : String
  Domain : String
  AuthMethods : List String
  Icon : String
  Illustration : String
  deriving DecidableEq, Repr

/-- The zero value of `AppConfig`. -/
def AppConfig.zero : AppConfig :=
  { Route := "", AppName := "", DisplayName := "", Domain := "", AuthMethods := [],
    Icon := "", Illustration := "" }

/-- The package-level table `AppConfigs`. -/
def AppConfigs : List AppConfig :=
  [ { Route := "/", AppName := "services", DisplayName := "Services",
      Domain := "files.hstles.com",
      AuthMethods := ["google", "microsoftonline", "github", "email"],
      Icon := "assets/media/app/hstles.png", Illustration := "assets/media/app/box.png" },
    { Route := "/files", AppName := "files", DisplayName := "Files",
      Domain := "files.hstles.com",
      AuthMethods := ["google", "microsoftonline", "github"],
      Icon := "assets/media/app/hstles.png",
      Illustration := "assets/media/app/box-files.svg" },
    { Route := "/organisation", AppName := "organisation", DisplayName := "Organisation",
      Domain := "organisation.hstles.com",
      AuthMethods := ["google", "microsoftonline"],
      Icon := "assets/media/app/hstles.png",
      Illustration := "/static/assets/media/app/hstles.png" },
    { Route := "/support", AppName := "support", DisplayName := "Support",
      Domain := "support.hstles.com",
      AuthMethods := ["google", "microsoftonline"],
      Icon := "assets/media/app/hstles.png",
      Illustration := "/static/assets/media/app/hstles.png" },
    { Route := "/account", AppName := "account", DisplayName := "My Account",
      Domain := "account.hstles.com",
      AuthMethods := ["google", "microsoftonline", "github", "email"],
      Icon := "assets/media/app/hstles.png",
      Illustration := "/static/assets/media/app/hstles.png" } ]

/-- GetAppByRoute retrieves the AppConfig based on the route; on a miss it returns
`AppConfigs[2]`. -/
def GetAppByRoute (route : String) : AppConfig :=
  match AppConfigs.find? (fun config => decide (config.Route = route)) with
  | some config => config
  | none => AppConfigs.get ⟨2, by decide⟩

/-- GetAppByName retrieves the AppConfig based on the app name; on a miss it returns
`AppConfigs[2]`. -/
def GetAppByName (name : String) : AppConfig :=
  match AppConfigs.find? (fun config => decide (config.AppName = name)) with
  | some config => config
  | none => AppConfigs.get ⟨2, by decide⟩

/-- GetAppByDomain retrieves the AppConfig based on the domain; on a miss it returns
`AppConfigs[0]`. -/
def GetAppByDomain (domain : String) : AppConfig :=
  match AppConfigs.find? (fun config => decide (config.Domain = domain)) with
  | some config => config
  | none => AppConfigs.get ⟨0, by decide⟩

/-- GetURL constructs the full URL from the domain. -/
def AppConfig.GetURL (ac : AppConfig) : String :=
  "https://" ++ ac.Domain

/-! ## `shared_utilities/provider_validation.go` -/

/-- ProviderValidationError represents an error when provider validation fails. -/
structure ProviderValidationError where
  Message : String
  SessionProvider : String
  AllowedProviders : List String
  AppName : String
  deriving DecidableEq, Repr

/-- The loop over the comma-separated `appDomains` of `ValidateSessionProvider`
(source lines 46-56): each domain is trimmed and, when it contains a ".", its first label
is looked up as a route; the loop stops at the first lookup with a non-empty `AppName`.
`appConfig` is the variable the loop assigns. -/
def domainsLoop (appConfig : AppConfig) : List String → AppConfig
  | [] => appConfig
  | domain :: rest =>
    let domain := stringsTrimSpace domain
    if stringsContains domain "." then
      let potentialAppName := (stringsSplit domain ".").headD ""
      let appConfig := GetAppByRoute ("/" ++ potentialAppName)
      if appConfig.AppName ≠ "" then appConfig else domainsLoop appConfig rest
    else domainsLoop appConfig rest

/-- The "more flexible search" loop of `ValidateSessionProvider` (source lines 61-73):
the first table entry whose name contains or is contained in `appName`, ignoring case, or
whose domain contains `appName + "."`; `appConfig` is left unchanged when there is none. -/
def flexibleSearch (appName : String) (appConfig : AppConfig) : List AppConfig → AppConfig
  | [] => appConfig
  | config :: rest =>
    if stringsContains (stringsToLower config.AppName) (stringsToLower appName) ||
        stringsContains (stringsToLower appName) (stringsToLower config.AppName) then config
    else if stringsContains config.Domain (appName ++ ".") then config
    else flexibleSearch appName appConfig rest

/-- The alternative approaches tried by `ValidateSessionProvider` inside
`if appConfig.AppName == ""` (source lines 40-74): route, then domains, then flexible
search. The result is the value of `appConfig` at source line 77. -/
def alternativeApproaches (appName appDomains : String) : AppConfig :=
  let appConfig := GetAppByRoute ("/" ++ appName)
  let appConfig :=
    if appConfig.AppName = "" ∧ appDomains ≠ "" then
      domainsLoop appConfig (stringsSplit appDomains ",")
    else appConfig
  if appConfig.AppName = "" then flexibleSearch appName appConfig AppConfigs else appConfig

/-- The error returned when the provider is not in the allowed list (source lines 95-106). -/
def providerNotAllowed (sessionProvider appName : String) (appConfig : AppConfig) :
    ProviderValidationError :=
  { Message := "Provider '" ++ sessionProvider ++ "' is not allowed for app '" ++ appName ++
      "' (" ++ appConfig.DisplayName ++ "). Allowed providers: " ++
      stringsJoin appConfig.AuthMethods ", "
    SessionProvider := sessionProvider
    AllowedProviders := appConfig.AuthMethods
    AppName := appName }

/-- The final check of `ValidateSessionProvider` against a resolved `appConfig`
(source lines 87-106). -/
def checkAllowed (sessionProvider appName : String) (appConfig : AppConfig) :
    Option ProviderValidationError :=
  if appConfig.AuthMethods.any (fun allowedProvider => decide (sessionProvider = allowedProvider))
  then none
  else some (providerNotAllowed sessionProvider appName appConfig)

/-- ValidateSessionProvider checks if the session provider is allowed for the given app.
`none` is the `nil` error. -/
def ValidateSessionProvider (sessionProvider appName appDomains : String) :
    Option ProviderValidationError :=
  if sessionProvider = "" then
    some { Message := "Session provider is empty", SessionProvider := sessionProvider,
           AllowedProviders := [], AppName := appName }
  else
    let appConfig := GetAppByName appName
    if appConfig.AppName = "" then
      let appConfig := alternativeApproaches appName appDomains
      if appConfig.AppName = "" then
        some { Message := "App configuration not found for app: " ++ appName,
               SessionProvider := sessionProvider, AllowedProviders := [],
               AppName := appName }
      else checkAllowed sessionProvider appName appConfig
    else checkAllowed sessionProvider appName appConfig

/-- IsProviderAllowed reports whether a provider is allowed for an app. -/
def IsProviderAllowed (provider appName : String) : Bool :=
  (ValidateSessionProvider provider appName "").isNone

/-! ## `shared_utilities/context.go` and Go's `context` values -/

/-- UserSessionData stores user session information. -/
structure UserSessionData where
  UserID : String
  Provider : String
  deriving DecidableEq, Repr

/-- A key given to `context.WithValue`, with its dynamic type: the untyped string
constants `"service_name"` and `"auth_type"` have type `string`, `sessionContextKey` has
the package type `contextKey`; keys of different types are never equal. -/
inductive ContextKey where
  | string (s : String)
  | contextKey (s : String)
  deriving DecidableEq, Repr

/-- A value stored in a context, with its dynamic type. -/
inductive ContextValue where
  | string (s : String)
  | userSessionData (d : UserSessionData)
  deriving DecidableEq, Repr

/-- A `context.Context` as the chain of its `WithValue` layers, innermost binding first. -/
abbrev Context := List (ContextKey × ContextValue)

/-- Go `context.WithValue(ctx, key, val)`. -/
def Context.WithValue (ctx : Context) (key : ContextKey) (val : ContextValue) : Context :=
  (key, val) :: ctx

/-- Go `ctx.Value(key)`: the value of the innermost layer with that key, `none` for `nil`. -/
def Context.Value : Context → ContextKey → Option ContextValue
  | [], _ => none
  | (k, v) :: rest, key => if k = key then some v else Context.Value rest key

/-- The constant `sessionContextKey = contextKey("session")`. -/
def sessionContextKey : ContextKey := ContextKey.contextKey "session"

/-- GetSessionContextKey returns the context key for session data. -/
def GetSessionContextKey : ContextKey := sessionContextKey

/-- GetSessionDataFromContext retrieves the full session data from context: the type
assertion `.(UserSessionData)` yields the zero value and `false` when it fails. -/
def GetSessionDataFromContext (ctx : Context) : UserSessionData × Bool :=
  match ctx.Value sessionContextKey with
  | some (ContextValue.userSessionData data) => (data, true)
  | _ => ({ UserID := "", Provider := "" }, false)

/-- SetSessionDataInContext stores session data in context. -/
def SetSessionDataInContext (ctx : Context) (sessionData : UserSessionData) : Context :=
  ctx.WithValue sessionContextKey (ContextValue.userSessionData sessionData)

/-! ## Requests, responses and `client_auth.Client.ValidateSession` -/

/-- An `http.Cookie`, as far as it is forwarded. -/
structure Cookie where
  Name : String
  Value : String
  deriving DecidableEq, Repr

/-- The parts of an `*http.Request` read by the middleware: `HeaderGet` is
`r.Header.Get`, `Cookies` is the result of `r.Cookies()`, `ctx` is `r.Context()`. -/
structure Request where
  Method : String
  HeaderGet : String → String
  Cookies : List Cookie
  RemoteAddr : String
  ctx : Context

/-- Go `r.WithContext(ctx)`. -/
def Request.WithContext (r : Request) (ctx : Context) : Request :=
  { r with ctx := ctx }

/-- What a middleware handler does with a request: it passes a request on to the next
handler (`next.ServeHTTP`), or it answers itself with a status and a body and returns,
or its `WriteHeader` call panics on a status code that is not a three-digit number. -/
inductive HandlerResult where
  | next (r : Request)
  | response (status : Int) (body : String)
  | invalidWriteHeader (code : Int)

/-- The log lines a handler printed and what it did with the request. -/
structure Outcome where
  logs : List String
  result : HandlerResult

/-- Go `http.StatusUnauthorized`. -/
def StatusUnauthorized : Int := 401

/-- Go net/http `bodyAllowedForStatus`: a response with an informational status, 204 or 304
carries no body, and what the handler writes to it is dropped. -/
def bodyAllowedForStatus (status : Int) : Bool :=
  if 100 ≤ status ∧ status ≤ 199 then false
  else if status = 204 then false
  else if status = 304 then false
  else true

/-- Go `http.Error(w, error, code)` on a response whose header is not yet written: it
calls `w.WriteHeader(code)`, which panics unless `100 ≤ code ≤ 999` (net/http
`checkWriteHeaderCode`), and then writes `error` followed by a newline, which reaches the
caller when the status allows a body. -/
def httpError (error : String) (code : Int) : HandlerResult :=
  if code < 100 ∨ code > 999 then HandlerResult.invalidWriteHeader code
  else if bodyAllowedForStatus code then HandlerResult.response code (error ++ "\n")
  else HandlerResult.response code ""

/-- SessionResponse is returned by GET /api/session. -/
structure SessionResponse where
  Valid : Bool
  UserID : String
  Provider : String
  Message : String
  Error : String
  deriving DecidableEq, Repr

/-- The zero value of `SessionResponse` (`var resp SessionResponse`). -/
def SessionResponse.zero : SessionResponse :=
  { Valid := false, UserID := "", Provider := "", Message := "", Error := "" }

/-- What the outbound call of `ValidateSession` meets: `c.HTTPClient.Do` fails with a
transport error (there is no HTTP response), or a response with a status code arrives and
its body fails to decode (`resp` holds whatever the decoder had filled in), or the body
decodes. -/
inductive RemoteReply where
  | transportError (err : String)
  | undecodable (status : Int) (resp : SessionResponse) (err : String)
  | decoded (status : Int) (resp : SessionResponse)
  deriving DecidableEq, Repr

/-- The remote auth service seen from the client: the reply to `GET /api/session` with
the given cookies attached. -/
abbrev AuthService := List Cookie → RemoteReply

/-- Client.ValidateSession: the response struct, the status code and the error. -/
def ValidateSession (service : AuthService) (cookies : List Cookie) :
    SessionResponse × Int × Option String :=
  match service cookies with
  | RemoteReply.transportError err => (SessionResponse.zero, 0, some err)
  | RemoteReply.undecodable status resp err => (resp, status, some err)
  | RemoteReply.decoded status resp => (resp, status, none)

/-! ## `shared_utilities/auth_middleware.go` -/

/-- SessionValidationMiddleware validates sessions using the auth service. -/
def SessionValidationMiddleware (service : AuthService) (r : Request) : Outcome :=
  match ValidateSession service r.Cookies with
  | (_, code, some err) =>
    { logs := ["Session validation error: " ++ err],
      result := httpError "Session validation failed" code }
  | (resp, _, none) =>
    if !resp.Valid then
      { logs := [], result := httpError "Unauthorized" StatusUnauthorized }
    else
      let sessionData : UserSessionData := { UserID := resp.UserID, Provider := resp.Provider }
      let ctx := SetSessionDataInContext r.ctx sessionData
      { logs := [], result := HandlerResult.next (r.WithContext ctx) }

/-- The key-validation loop of `ServiceAuthMiddleware` (source lines 161-167): the name of
the first visited entry whose key equals `apiKey`, the empty string when there is none. -/
def findServiceName (apiKey : String) : List (String × String) → String
  | [] => ""
  | (name, key) :: rest => if key = apiKey then name else findServiceName apiKey rest

/-- ServiceAuthMiddleware validates API keys for service-to-service communication. -/
def ServiceAuthMiddleware (validAPIKeys : List (String × String)) (r : Request) : Outcome :=
  let apiKey := r.HeaderGet "X-API-Key"
  if apiKey = "" then
    { logs := [], result := httpError "API key required" StatusUnauthorized }
  else
    let serviceName := findServiceName apiKey validAPIKeys
    if serviceName = "" then
      { logs := ["Invalid API key attempt from " ++ r.RemoteAddr],
        result := httpError "Invalid API key" StatusUnauthorized }
    else
      let ctx := r.ctx.WithValue (ContextKey.string "service_name")
        (ContextValue.string serviceName)
      { logs := ["Service-to-service call from: " ++ serviceName],
        result := HandlerResult.next (r.WithContext ctx) }

/-- The API-key loop of `MixedAuthMiddleware` (source lines 190-199): the first visited
entry whose key equals `apiKey` sends the request on; with no such entry the answer is 401. -/
def mixedKeyLoop (r : Request) (apiKey : String) : List (String × String) → HandlerResult
  | [] => httpError "Invalid API key" StatusUnauthorized
  | (name, key) :: rest =>
    if key = apiKey then
      let ctx := r.ctx.WithValue (ContextKey.string "service_name") (ContextValue.string name)
      let ctx := ctx.WithValue (ContextKey.string "auth_type") (ContextValue.string "service")
      HandlerResult.next (r.WithContext ctx)
    else mixedKeyLoop r apiKey rest

/-- MixedAuthMiddleware allows both session and API key authentication. -/
def MixedAuthMiddleware (service : AuthService) (validAPIKeys : List (String × String))
    (r : Request) : Outcome :=
  let apiKey := r.HeaderGet "X-API-Key"
  if apiKey ≠ "" then
    { logs := [], result := mixedKeyLoop r apiKey validAPIKeys }
  else
    match ValidateSession service r.Cookies with
    | (resp, _, err) =>
      if err = none ∧ resp.Valid = true then
        let sessionData : UserSessionData :=
          { UserID := resp.UserID, Provider := resp.Provider }
        let ctx := SetSessionDataInContext r.ctx sessionData
        let ctx := ctx.WithValue (ContextKey.string "auth_type") (ContextValue.string "session")
        { logs := [], result := HandlerResult.next (r.WithContext ctx) }
      else
        { logs := [], result := httpError "Unauthorized" StatusUnauthorized }

/-- GetServiceName gets the service name from API key authentication. -/
def GetServiceName (r : Request) : String × Bool :=
  match r.ctx.Value (ContextKey.string "service_name") with
  | some (ContextValue.string serviceName) => (serviceName, true)
  | _ => ("", false)

/-- GetAuthType returns the authentication type used (session or service). -/
def GetAuthType (r : Request) : String :=
  match r.ctx.Value (ContextKey.string "auth_type") with
  | some (ContextValue.string authType) => authType
  | _ => "unknown"

/-- A request with the given `X-API-Key` header and cookies, used in the examples. -/
def sampleRequest (apiKey : String) (cookies : List Cookie) : Request :=
  { Method := "GET",
    HeaderGet := fun name => if name = "X-API-Key" then apiKey else "",
    Cookies := cookies,
    RemoteAddr := "10.0.0.7:51234",
    ctx := [] }

/-- An auth service that cannot be reached. -/
def unreachableService : AuthService :=
  fun _ => RemoteReply.transportError "dial tcp: connection refused"

/-- An auth service that accepts every session as user "u1" signed in with "google". -/
def acceptingService : AuthService :=
  fun _ => RemoteReply.decoded 200
    { Valid := true, UserID := "u1", Provider := "google", Message := "", Error := "" }

/-- An auth service that answers 200 with a body whose `valid` field is false. -/
def rejectingService : AuthService :=
  fun _ => RemoteReply.decoded 200 SessionResponse.zero

/-! ## `core_config/apps.go`: the `next` parameter -/

/-- Go `strings.HasSuffix(s, suffix)`. -/
def stringsHasSuffix (s suffix : String) : Bool :=
  suffix.data.isSuffixOf s.data

/-- The fields of a Go `url.URL` set by the parser; `Host` is the authority without user
information, that is the host name together with a port when there is one. -/
structure URL where
  Scheme : String
  Opaque : String
  Host : String
  Path : String
  RawQuery : String
  deriving DecidableEq, Repr

/-- Go `url.ParseRequestURI` is library code outside the repository: the functions that
call it take it as the parameter `parse`, with `none` for a parse error. -/
abbrev RequestURIParser := String → Option URL

/-- IsValidURL checks if a string is a valid URL and belongs to the "*.hstles.com" domain:
it parses and the host of the parsed URL ends with ".hstles.com". -/
def IsValidURL (parse : RequestURIParser) (str : String) : Bool :=
  match parse str with
  | none => false
  | some parsedURL => if stringsHasSuffix parsedURL.Host ".hstles.com" then true else false

/-- ValidateNextParameter validates the 'next' parameter: the URL returned and the error
(`none` is `nil`). -/
def ValidateNextParameter (parse : RequestURIParser) (next : String) :
    String × Option String :=
  if next = "" then
    let appConfig := GetAppByRoute "/"
    (appConfig.GetURL, none)
  else if IsValidURL parse next then
    (next, none)
  else
    let appConfig := GetAppByName next
    if appConfig.AppName ≠ "" then
      (appConfig.GetURL, none)
    else
      let appConfig := GetAppByRoute "/"
      (appConfig.GetURL, some ("invalid 'next' parameter: " ++ next ++ ", using default route"))

/-- The results of `url.ParseRequestURI` on the strings used in the examples: absolute
URLs with their hosts (the parser keeps a port in `Host` and does not change its case); the other strings of the examples (bare words such as
"files" or "nonsense", which have no scheme and do not start with "/") are rejected. -/
def exampleParseRequestURI : RequestURIParser := fun rawURL =>
  if rawURL = "https://files.hstles.com/x" then
    some { Scheme := "https", Opaque := "", Host := "files.hstles.com", Path := "/x",
           RawQuery := "" }
  else if rawURL = "https://hstles.com/x" then
    some { Scheme := "https", Opaque := "", Host := "hstles.com", Path := "/x",
           RawQuery := "" }
  else if rawURL = "https://evil.example.com" then
    some { Scheme := "https", Opaque := "", Host := "evil.example.com", Path := "",
           RawQuery := "" }
  else if rawURL = "https://files.hstles.com:8443/x" then
    some { Scheme := "https", Opaque := "", Host := "files.hstles.com:8443", Path := "/x",
           RawQuery := "" }
  else if rawURL = "https://FILES.HSTLES.COM/x" then
    some { Scheme := "https", Opaque := "", Host := "FILES.HSTLES.COM", Path := "/x",
           RawQuery := "" }
  else none

/-! ## `shared_utilities/provider_validation.go`: the middleware -/

/-- Go `http.StatusForbidden`. -/
def StatusForbidden : Int := 403

/-- Go `http.StatusInternalServerError`. -/
def StatusInternalServerError : Int := 500

/-- ProviderValidationMiddleware validates the provider of the session data in the request
context. The error of `ValidateSessionProvider` is always a `*ProviderValidationError`, so
the type assertion on it succeeds and its 500 branch is not reachable. -/
def ProviderValidationMiddleware (appName appDomains : String) (r : Request) : Outcome :=
  match r.ctx.Value GetSessionContextKey with
  | some (ContextValue.userSessionData sessionData) =>
    let provider := sessionData.Provider
    if provider = "" then
      { logs := [],
        result := httpError "Provider information not available" StatusUnauthorized }
    else
      match ValidateSessionProvider provider appName appDomains with
      | some pvErr => { logs := [], result := httpError pvErr.Message StatusForbidden }
      | none => { logs := [], result := HandlerResult.next r }
  | _ =>
    { logs := [],
      result := httpError "Session data not found in context" StatusInternalServerError }

/-- A request whose context carries the given session data. -/
def sessionRequest (sessionData : UserSessionData) : Request :=
  { Method := "GET",
    HeaderGet := fun _ => "",
    Cookies := [],
    RemoteAddr := "10.0.0.7:51234",
    ctx := SetSessionDataInContext [] sessionData }

/-- The flexible search of `GetAllowedProvidersForApp` (source lines 157-164): the first
table entry whose name contains or is contained in `appName`, ignoring case, or whose
domain contains `appName + "."`; `appConfig` is left unchanged when there is none. -/
def allowedProvidersSearch (appName : String) (appConfig : AppConfig) :
    List AppConfig → AppConfig
  | [] => appConfig
  | config :: rest =>
    if stringsContains (stringsToLower config.AppName) (stringsToLower appName) ||
        stringsContains (stringsToLower appName) (stringsToLower config.AppName) ||
        stringsContains config.Domain (appName ++ ".") then config
    else allowedProvidersSearch appName appConfig rest

/-- GetAllowedProvidersForApp returns the list of allowed providers for a given app. -/
def GetAllowedProvidersForApp (appName : String) : List String :=
  let appConfig := GetAppByName appName
  let appConfig := if appConfig.AppName = "" then GetAppByRoute ("/" ++ appName) else appConfig
  let appConfig :=
    if appConfig.AppName = "" then allowedProvidersSearch appName appConfig AppConfigs
    else appConfig
  appConfig.AuthMethods

/-! ## `shared_utilities/security.go` (the same middleware is in `core_utilities/security.go`) -/

/-- Go `url.Parse` is library code outside the repository: `SecurityMiddleware` takes it as
the parameter `parse`, with `none` for a parse error. -/
abbrev URLParser := String → Option URL

/-- Go `(*URL).Hostname`: `Host` without a valid port (a last ":" followed by digits only)
and without the square brackets of an IPv6 literal. -/
def URL.Hostname (u : URL) : String :=
  let hostPort := u.Host.data
  let host :=
    match hostPort.reverse.span (fun c => c != Char.ofNat 58) with
    | (portRev, _ :: hostRev) => if portRev.all Char.isDigit then hostRev.reverse else hostPort
    | (_, []) => hostPort
  match host with
  | c :: rest =>
    if c = Char.ofNat 91 ∧ rest.getLast? = some (Char.ofNat 93) then String.mk rest.dropLast
    else String.mk host
  | [] => String.mk host

/-- The `Content-Security-Policy` value built by `fmt.Sprintf` from the parent domain. -/
def contentSecurityPolicy (parentDomain : String) : String :=
  "default-src 'self' https://*." ++ parentDomain ++ "; " ++
    "img-src 'self' data:; " ++
    "font-src 'self' https://cdnjs.cloudflare.com https://fonts.gstatic.com; " ++
    "script-src 'self' https://*." ++ parentDomain ++
    " https://unpkg.com https://fonts.googleapis.com https://cdnjs.cloudflare.com 'unsafe-inline' 'unsafe-eval'; " ++
    "style-src 'self' https://*." ++ parentDomain ++
    " https://fonts.googleapis.com https://cdnjs.cloudflare.com 'unsafe-inline';"

/-- What a header-setting middleware does: `header` lists the `w.Header().Set(name, value)`
calls it made itself, in order, on the response header it was given; `result` is what it
did with the request. -/
structure HeaderOutcome where
  header : List (String × String)
  result : HandlerResult

/-- The CORS headers `SecurityMiddleware` sets for an allowed origin (source lines 22-25). -/
def corsHeaders (origin : String) : List (String × String) :=
  [("Access-Control-Allow-Origin", origin),
   ("Access-Control-Allow-Credentials", "true"),
   ("Access-Control-Allow-Methods", "GET, POST, DELETE, OPTIONS"),
   ("Access-Control-Allow-Headers", "Content-Type")]

/-- The CORS part of `SecurityMiddleware` (source lines 18-28): the headers set for the
request's `Origin`. -/
def securityCors (parse : URLParser) (parentDomain : String) (r : Request) :
    List (String × String) :=
  let origin := r.HeaderGet "Origin"
  if origin ≠ "" then
    match parse origin with
    | some u =>
      if u.Scheme = "https" then
        let host := u.Hostname
        if host = parentDomain ∨ stringsHasSuffix host ("." ++ parentDomain) = true then
          corsHeaders origin
        else []
      else []
    | none => []
  else []

/-- Go `http.StatusOK`. -/
def StatusOK : Int := 200

/-- Go `http.MethodOptions`. -/
def MethodOptions : String := "OPTIONS"

/-- SecurityMiddleware is the CORS + CSP middleware wrapped around the handler `next`;
`w.WriteHeader(http.StatusOK)` with no body is the response 200 with an empty body. -/
def SecurityMiddleware (parse : URLParser) (parentDomain : String)
    (next : Request → HandlerResult) (r : Request) : HeaderOutcome :=
  let header := securityCors parse parentDomain r ++
    [("Content-Security-Policy", contentSecurityPolicy parentDomain)]
  if r.Method = MethodOptions then
    { header := header, result := HandlerResult.response StatusOK "" }
  else
    { header := header, result := next r }

/-- CoreConfig holds only the truly common settings. -/
structure CoreConfig where
  AppName : String
  AppDomains : String
  AppEnv : String
  TursoCoreDBURL : String
  TursoAuthToken : String
  TursoPlatformToken : String
  deriving DecidableEq, Repr

/-- The handler `SecurityWithProviderValidationMiddleware` wraps in `SecurityMiddleware`
(source lines 59-68): provider validation when session data with a provider is available,
then the next handler. -/
def providerValidationStep (coreCfg : CoreConfig) (r : Request) : HandlerResult :=
  match GetSessionDataFromContext r.ctx with
  | (sessionData, ok) =>
    if ok = true ∧ sessionData.Provider ≠ "" then
      match ValidateSessionProvider sessionData.Provider coreCfg.AppName coreCfg.AppDomains with
      | some err => httpError ("Access denied: " ++ err.Message) StatusForbidden
      | none => HandlerResult.next r
    else HandlerResult.next r

/-- SecurityWithProviderValidationMiddleware combines security headers with provider
validation. -/
def SecurityWithProviderValidationMiddleware (parse : URLParser) (parentDomain : String)
    (coreCfg : CoreConfig) (r : Request) : HeaderOutcome :=
  SecurityMiddleware parse parentDomain (providerValidationStep coreCfg) r

/-- The results of `url.Parse` on the origins used in the examples. -/
def exampleURLParse : URLParser := fun rawURL =>
  if rawURL = "https://sub.hstles.com" then
    some { Scheme := "https", Opaque := "", Host := "sub.hstles.com", Path := "",
           RawQuery := "" }
  else if rawURL = "https://attacker.com" then
    some { Scheme := "https", Opaque := "", Host := "attacker.com", Path := "",
           RawQuery := "" }
  else if rawURL = "http://sub.hstles.com" then
    some { Scheme := "http", Opaque := "", Host := "sub.hstles.com", Path := "",
           RawQuery := "" }
  else if rawURL = "https://evilhstles.com" then
    some { Scheme := "https", Opaque := "", Host := "evilhstles.com", Path := "",
           RawQuery := "" }
  else if rawURL = "https://hstles.com:8443" then
    some { Scheme := "https", Opaque := "", Host := "hstles.com:8443", Path := "",
           RawQuery := "" }
  else none

/-- A request with the given method and `Origin` header and an empty context. -/
def originRequest (method origin : String) : Request :=
  { Method := method,
    HeaderGet := fun name => if name = "Origin" then origin else "",
    Cookies := [],
    RemoteAddr := "10.0.0.7:51234",
    ctx := [] }

/-! ## `LoadSecurityConfig` (`shared_utilities/auth_middleware.go`) -/

/-- SecurityConfig holds configuration for route-based security; `APIKeys` is the map from
service name to API key, as the list of its entries. -/
structure SecurityConfig where
  AuthServiceURL : String
  IdentityServiceURL : String
  NotifyServiceURL : String
  AccountServiceURL : String
  LoginServiceURL : String
  APIKeys : List (String × String)
  deriving DecidableEq, Repr

/-- One of the four key-loading statements of `LoadSecurityConfig`: when the variable
`envVar` is non-empty, `apiKeys[service]` is set to its value; the map has no entry for
`service` before. -/
def loadAPIKey (getenv : String → String) (envVar service : String)
    (apiKeys : List (String × String)) : List (String × String) :=
  let key := getenv envVar
  if key ≠ "" then apiKeys ++ [(service, key)] else apiKeys

/-- One service URL of `LoadSecurityConfig`: the variable, or the default when it is empty. -/
def loadServiceURL (getenv : String → String) (envVar fallback : String) : String :=
  let url := getenv envVar
  if url = "" then fallback else url

/-- LoadSecurityConfig loads security configuration from the environment; `getenv` is
`os.Getenv`, which yields the empty string for an unset variable. -/
def LoadSecurityConfig (getenv : String → String) : SecurityConfig :=
  let apiKeys : List (String × String) := []
  let apiKeys := loadAPIKey getenv "AUTH_SERVICE_API_KEY" "auth" apiKeys
  let apiKeys := loadAPIKey getenv "IDENTITY_SERVICE_API_KEY" "identity" apiKeys
  let apiKeys := loadAPIKey getenv "NOTIFY_SERVICE_API_KEY" "notify" apiKeys
  let apiKeys := loadAPIKey getenv "ACCOUNT_SERVICE_API_KEY" "account" apiKeys
  { AuthServiceURL := loadServiceURL getenv "AUTH_SERVICE_URL" "https://auth.hstles.com",
    IdentityServiceURL :=
      loadServiceURL getenv "IDENTITY_SERVICE_URL" "https://identity.hstles.com",
    NotifyServiceURL := loadServiceURL getenv "NOTIFY_SERVICE_URL" "https://notify.hstles.com",
    AccountServiceURL :=
      loadServiceURL getenv "ACCOUNT_SERVICE_URL" "https://account.hstles.com",
    LoginServiceURL := loadServiceURL getenv "LOGIN_SERVICE_URL" "https://login.hstles.com",
    APIKeys := apiKeys }

/-- An environment in which only the notify key and the auth URL are set. -/
def exampleEnv : String → String := fun name =>
  if name = "NOTIFY_SERVICE_API_KEY" then "k-notify"
  else if name = "AUTH_SERVICE_URL" then "http://localhost:8081"
  else ""

/-! ## The proxy handlers: `client_auth/handlers.go`, `client_identity` -/

/-- Go `json.NewEncoder(w).Encode(v)` is library code: the handlers take the encoding of
their response type as the parameter `encode`. The handlers write the response with
`w.WriteHeader(code)`, which panics on a code outside 100..999 like `httpError`, and the
body reaches the caller when the status allows one. -/
def writeJSON (code : Int) (body : String) : HandlerResult :=
  if code < 100 ∨ code > 999 then HandlerResult.invalidWriteHeader code
  else if bodyAllowedForStatus code then HandlerResult.response code body
  else HandlerResult.response code ""

/-- ValidateSessionHandler proxies GET /api/session (`client_auth`). -/
def ValidateSessionHandler (encode : SessionResponse → String) (service : AuthService)
    (r : Request) : HandlerResult :=
  match ValidateSession service r.Cookies with
  | (_, code, some err) => httpError err code
  | (resp, code, none) => writeJSON code (encode resp)

/-- HealthResponse is returned by GET /api/health (`client_identity`). -/
structure HealthResponse where
  Status : String
  Message : String
  deriving DecidableEq, Repr

/-- The zero value of `HealthResponse`. -/
def HealthResponse.zero : HealthResponse := { Status := "", Message := "" }

/-- What the outbound call of `client_identity.Client.Health` meets, as `RemoteReply` for
the session check. -/
inductive HealthReply where
  | transportError (err : String)
  | undecodable (status : Int) (resp : HealthResponse) (err : String)
  | decoded (status : Int) (resp : HealthResponse)
  deriving DecidableEq, Repr

/-- Client.Health of `client_identity`: the response struct, the status code and the
error. -/
def Health (reply : HealthReply) : HealthResponse × Int × Option String :=
  match reply with
  | HealthReply.transportError err => (HealthResponse.zero, 0, some err)
  | HealthReply.undecodable status resp err => (resp, status, some err)
  | HealthReply.decoded status resp => (resp, status, none)

/-- HealthHandler proxies GET /api/health (`client_identity`). -/
def HealthHandler (encode : HealthResponse → String) (reply : HealthReply) : HandlerResult :=
  match Health reply with
  | (_, _, some err) => httpError err StatusInternalServerError
  | (resp, code, none) => writeJSON code (encode resp)

/-- What the outbound call of any client method meets, for a response type `α`: a
transport error, a response with a status whose body fails to decode, or a decoded
response. -/
inductive Reply (α : Type) where
  | transportError (err : String)
  | undecodable (status : Int) (resp : α) (err : String)
  | decoded (status : Int) (resp : α)

/-- The body shared by the JSON client methods of `client_auth/client.go` and
`client_identity/client.go` (`return resp, 0, err` after `Do`, `return resp, status, err`
after `Decode`, `return resp, status, nil`); `zero` is the zero value of the response. -/
def clientCall {α : Type} (zero : α) : Reply α → α × Int × Option String
  | Reply.transportError err => (zero, 0, some err)
  | Reply.undecodable status resp err => (resp, status, some err)
  | Reply.decoded status resp => (resp, status, none)

/-- What every handler of `client_auth/handlers.go` does with the result
`resp, code, err` of its remote call (all 20 calls): on an error
`http.Error(w, err.Error(), code)`, otherwise the handler's own way of writing the
response, `write`. -/
def authProxyHandler {α : Type} (write : α → Int → HandlerResult)
    (call : α × Int × Option String) : HandlerResult :=
  match call with
  | (_, code, some err) => httpError err code
  | (resp, code, none) => write resp code

/-- What every handler of `client_identity/handlers.go` does with the result
`resp, code, err` of its remote call (all 31 handlers): on an error
`http.Error(w, err.Error(), http.StatusInternalServerError)`, otherwise the handler's own
way of writing the response, `write`. -/
def identityProxyHandler {α : Type} (write : α → Int → HandlerResult)
    (call : α × Int × Option String) : HandlerResult :=
  match call with
  | (_, _, some err) => httpError err StatusInternalServerError
  | (resp, code, none) => write resp code

/-! ## The registry and the provider validator -/

theorem appConfigs_appName_ne_empty : ∀ c ∈ AppConfigs, c.AppName ≠ "" := by decide

theorem getAppByName_mem (name : String) : GetAppByName name ∈ AppConfigs := by
  unfold GetAppByName
  split
  · next config h => exact List.mem_of_find?_eq_some h
  · exact List.get_mem _ _ _

/-- GetAppByName never yields the empty `AppName` that `ValidateSessionProvider` tests for. -/
theorem getAppByName_appName_ne_empty (name : String) : (GetAppByName name).AppName ≠ "" :=
  appConfigs_appName_ne_empty _ (getAppByName_mem name)

theorem getAppByName_registered : ∀ c ∈ AppConfigs, GetAppByName c.AppName = c := by decide

theorem appConfigs_authMethods_no_empty : ∀ c ∈ AppConfigs, "" ∉ c.AuthMethods := by decide

theorem appConfigs_authMethods_no_Google : ∀ c ∈ AppConfigs, "Google" ∉ c.AuthMethods := by
  decide

theorem checkAllowed_eq_none_iff (p a : String) (c : AppConfig) :
    checkAllowed p a c = none ↔ p ∈ c.AuthMethods := by
  unfold checkAllowed
  by_cases h : p ∈ c.AuthMethods
  · simp [h]
  · simp [h]

theorem checkAllowed_of_not_mem (p a : String) (c : AppConfig) (h : p ∉ c.AuthMethods) :
    checkAllowed p a c = some (providerNotAllowed p a c) := by
  unfold checkAllowed
  simp [h]

/-- With a non-empty provider the validator is the final check against `GetAppByName`. -/
theorem validateSessionProvider_of_ne_empty (p a hint : String) (hp : p ≠ "") :
    ValidateSessionProvider p a hint = checkAllowed p a (GetAppByName a) := by
  simp only [ValidateSessionProvider, if_neg hp, if_neg (getAppByName_appName_ne_empty a)]

theorem validateSessionProvider_empty (a hint : String) :
    ValidateSessionProvider "" a hint =
      some { Message := "Session provider is empty", SessionProvider := "",
             AllowedProviders := [], AppName := a } := by
  simp [ValidateSessionProvider]

/-- C1: for an app name `a` that is exactly the `AppName` of a registry entry `c`, every
provider `p` and every hint, `ValidateSessionProvider p a hint` is `nil` if and only if `p`
is an element of `c.AuthMethods` (exact string equality); the empty provider and the
differently-cased provider "Google" are rejected. -/
theorem validateSessionProvider_registered_name (c : AppConfig) (hc : c ∈ AppConfigs)
    (a p hint : String) (ha : a = c.AppName) :
    (ValidateSessionProvider p a hint = none ↔ p ∈ c.AuthMethods) ∧
      ValidateSessionProvider "" a hint ≠ none ∧
      ValidateSessionProvider "Google" a hint ≠ none := by
  subst ha
  refine ⟨?_, ?_, ?_⟩
  · by_cases hp : p = ""
    · subst hp
      simp [validateSessionProvider_empty, appConfigs_authMethods_no_empty c hc]
    · rw [validateSessionProvider_of_ne_empty p _ hint hp, getAppByName_registered c hc,
        checkAllowed_eq_none_iff]
  · simp [validateSessionProvider_empty]
  · rw [validateSessionProvider_of_ne_empty "Google" _ hint (by decide),
      getAppByName_registered c hc,
      checkAllowed_of_not_mem _ _ _ (appConfigs_authMethods_no_Google c hc)]
    simp

theorem validateSessionProvider_registered_name_witness :
    (GetAppByName "files" ∈ AppConfigs ∧ "files" = (GetAppByName "files").AppName) ∧
      ((ValidateSessionProvider "github" "files" "files.hstles.com" = none ↔
          "github" ∈ (GetAppByName "files").AuthMethods) ∧
        ValidateSessionProvider "" "files" "files.hstles.com" ≠ none ∧
        ValidateSessionProvider "Google" "files" "files.hstles.com" ≠ none) :=
  ⟨⟨by decide, by decide⟩,
    validateSessionProvider_registered_name (GetAppByName "files") (by decide)
      "files" "github" "files.hstles.com" (by decide)⟩

/-- C2: the app name "zzz" is no registered `AppName`, "/zzz" is no registered `Route` and
the substring search finds no entry for it, yet `ValidateSessionProvider "google" "zzz" ""`
returns `nil`: the provider is accepted instead of the error naming the app. -/
theorem validateSessionProvider_unmatched_app_accepted :
    (∀ c ∈ AppConfigs, c.AppName ≠ "zzz") ∧ (∀ c ∈ AppConfigs, c.Route ≠ "/zzz") ∧
      flexibleSearch "zzz" AppConfig.zero AppConfigs = AppConfig.zero ∧
      ValidateSessionProvider "google" "zzz" "" = none := by
  refine ⟨by decide, by decide, by decide, by decide⟩

/-- C3: for a registry entry `c` with `AppName` `a` and a non-empty provider `p` that is not
in `c.AuthMethods`, `ValidateSessionProvider` returns a `ProviderValidationError` whose
`AllowedProviders` is the whole list `c.AuthMethods` in registry order, whose
`SessionProvider` is `p` and whose `AppName` is the `appName` argument. -/
theorem validateSessionProvider_denial_is_structured (c : AppConfig) (hc : c ∈ AppConfigs)
    (a p hint : String) (ha : a = c.AppName) (hp : p ≠ "") (hnot : p ∉ c.AuthMethods) :
    ∃ e : ProviderValidationError, ValidateSessionProvider p a hint = some e ∧
      e.AllowedProviders = c.AuthMethods ∧ e.SessionProvider = p ∧ e.AppName = a := by
  subst ha
  refine ⟨providerNotAllowed p c.AppName c, ?_, rfl, rfl, rfl⟩
  rw [validateSessionProvider_of_ne_empty p _ hint hp, getAppByName_registered c hc,
    checkAllowed_of_not_mem _ _ _ hnot]

theorem validateSessionProvider_denial_is_structured_witness :
    (GetAppByName "support" ∈ AppConfigs ∧ "support" = (GetAppByName "support").AppName ∧
        "github" ≠ "" ∧ "github" ∉ (GetAppByName "support").AuthMethods) ∧
      ∃ e : ProviderValidationError, ValidateSessionProvider "github" "support" "" = some e ∧
        e.AllowedProviders = (GetAppByName "support").AuthMethods ∧
        e.SessionProvider = "github" ∧ e.AppName = "support" :=
  ⟨⟨by decide, by decide, by decide, by decide⟩,
    validateSessionProvider_denial_is_structured (GetAppByName "support") (by decide)
      "support" "github" "" (by decide) (by decide) (by decide)⟩

/-- C4: the fallback chain is not what judges an unregistered app name. The substring
search would resolve "FILES" to the files entry and the hint "account.hstles.com" would
resolve to the account entry, both of which allow "github"; the validator instead judges
both "FILES" and "portal" against the organisation entry and rejects "github". -/
theorem validateSessionProvider_fallback_chain_unused :
    (flexibleSearch "FILES" AppConfig.zero AppConfigs).AppName = "files" ∧
      "github" ∈ (GetAppByName "files").AuthMethods ∧
      (domainsLoop AppConfig.zero (stringsSplit "account.hstles.com" ",")).AppName = "account" ∧
      "github" ∈ (GetAppByName "account").AuthMethods ∧
      ValidateSessionProvider "github" "FILES" "" =
        some (providerNotAllowed "github" "FILES" (GetAppByName "organisation")) ∧
      ValidateSessionProvider "github" "portal" "account.hstles.com" =
        some (providerNotAllowed "github" "portal" (GetAppByName "organisation")) := by
  refine ⟨by decide, by decide, by decide, by decide, by decide, by decide⟩


/-! ## The authentication middleware -/

theorem httpError_unauthorized (msg : String) :
    httpError msg StatusUnauthorized = HandlerResult.response 401 (msg ++ "\n") := by
  simp [httpError, StatusUnauthorized, bodyAllowedForStatus]

/-- The session middleware sends the request on exactly when the session check returned
no error and a valid session, and then with the session data of the reply in the context. -/
theorem sessionValidation_next_iff (service : AuthService) (r r' : Request) :
    (SessionValidationMiddleware service r).result = HandlerResult.next r' ↔
      ∃ status resp, service r.Cookies = RemoteReply.decoded status resp ∧ resp.Valid = true ∧
        r' = r.WithContext (SetSessionDataInContext r.ctx
          { UserID := resp.UserID, Provider := resp.Provider }) := by
  unfold SessionValidationMiddleware ValidateSession
  cases hreply : service r.Cookies with
  | transportError err => simp [httpError]
  | undecodable status resp err =>
    simp only [httpError]
    split_ifs <;> simp
  | decoded status resp =>
    cases hv : resp.Valid
    · simp [hv, httpError_unauthorized]
    · simp only [hv, Bool.not_true, Bool.false_eq_true, if_false, HandlerResult.next.injEq,
        RemoteReply.decoded.injEq]
      constructor
      · intro h
        exact ⟨status, resp, ⟨rfl, rfl⟩, hv, h.symm⟩
      · rintro ⟨_, _, ⟨rfl, rfl⟩, _, h⟩
        exact h.symm

theorem getSessionData_setSessionData (ctx : Context) (d : UserSessionData) :
    GetSessionDataFromContext (SetSessionDataInContext ctx d) = (d, true) := by
  simp [GetSessionDataFromContext, SetSessionDataInContext, Context.WithValue, Context.Value]

/-- C5: when the auth service cannot be reached, the session middleware neither invokes
the next handler nor writes a response: its `WriteHeader(0)` panics. The claim's "in every
other case a response is written" fails at this input. -/
theorem sessionValidation_unreachable_writes_nothing :
    (¬ ∃ r', (SessionValidationMiddleware unreachableService
        (sampleRequest "" [{ Name := "session", Value := "abc" }])).result =
          HandlerResult.next r') ∧
      ¬ ∃ status body, (SessionValidationMiddleware unreachableService
        (sampleRequest "" [{ Name := "session", Value := "abc" }])).result =
          HandlerResult.response status body := by
  constructor
  · rintro ⟨r', h⟩
    simp [SessionValidationMiddleware, ValidateSession, unreachableService, httpError] at h
  · rintro ⟨status, body, h⟩
    simp [SessionValidationMiddleware, ValidateSession, unreachableService, httpError] at h

/-- C6: when the session check decodes without error and its `valid` field is false,
whatever the remote status, the session middleware answers 401 "Unauthorized" and does
not invoke the next handler. -/
theorem sessionValidation_invalid_session_401 (service : AuthService) (r : Request)
    (status : Int) (resp : SessionResponse)
    (hreply : service r.Cookies = RemoteReply.decoded status resp)
    (hvalid : resp.Valid = false) :
    (SessionValidationMiddleware service r).result =
        HandlerResult.response 401 "Unauthorized\n" ∧
      ∀ r', (SessionValidationMiddleware service r).result ≠ HandlerResult.next r' := by
  have h : (SessionValidationMiddleware service r).result =
      HandlerResult.response 401 "Unauthorized\n" := by
    simp [SessionValidationMiddleware, ValidateSession, hreply, hvalid,
      httpError_unauthorized]
  exact ⟨h, fun r' h' => by rw [h] at h'; cases h'⟩

theorem sessionValidation_invalid_session_401_witness :
    (rejectingService (sampleRequest "" []).Cookies =
        RemoteReply.decoded 200 SessionResponse.zero ∧ SessionResponse.zero.Valid = false) ∧
      ((SessionValidationMiddleware rejectingService (sampleRequest "" [])).result =
          HandlerResult.response 401 "Unauthorized\n" ∧
        ∀ r', (SessionValidationMiddleware rejectingService (sampleRequest "" [])).result ≠
          HandlerResult.next r') :=
  ⟨⟨rfl, rfl⟩,
    sessionValidation_invalid_session_401 rejectingService (sampleRequest "" []) 200
      SessionResponse.zero rfl rfl⟩

/-- C7: on a transport error the client reports status code 0 and the session middleware
passes that 0 to `http.Error` unchanged: `WriteHeader(0)` panics and no response with a
5xx status (nor with any status) is written. The next handler is not invoked. -/
theorem sessionValidation_transport_error_status_zero :
    ValidateSession unreachableService [] =
        (SessionResponse.zero, 0, some "dial tcp: connection refused") ∧
      (SessionValidationMiddleware unreachableService (sampleRequest "" [])).result =
        HandlerResult.invalidWriteHeader 0 ∧
      ∀ status body, (SessionValidationMiddleware unreachableService
        (sampleRequest "" [])).result ≠ HandlerResult.response status body := by
  refine ⟨rfl, rfl, ?_⟩
  intro status body h
  simp [SessionValidationMiddleware, ValidateSession, unreachableService, httpError] at h

theorem findServiceName_mem (apiKey : String) (keys : List (String × String))
    (h : findServiceName apiKey keys ≠ "") : (findServiceName apiKey keys, apiKey) ∈ keys := by
  induction keys with
  | nil => simp [findServiceName] at h
  | cons e rest ih =>
    obtain ⟨name, key⟩ := e
    unfold findServiceName at h ⊢
    by_cases hk : key = apiKey
    · simp [hk]
    · simp only [if_neg hk] at h ⊢
      exact List.mem_cons_of_mem _ (ih h)

theorem findServiceName_of_not_mem (apiKey : String) (keys : List (String × String))
    (h : ∀ name, (name, apiKey) ∉ keys) : findServiceName apiKey keys = "" := by
  induction keys with
  | nil => rfl
  | cons e rest ih =>
    obtain ⟨name, key⟩ := e
    unfold findServiceName
    by_cases hk : key = apiKey
    · exact absurd (by simp [hk]) (h name)
    · simp only [if_neg hk]
      exact ih (fun n hn => h n (List.mem_cons_of_mem _ hn))

theorem findServiceName_of_unique (apiKey s : String) (keys : List (String × String))
    (hmem : (s, apiKey) ∈ keys) (huniq : ∀ name, (name, apiKey) ∈ keys → name = s) :
    findServiceName apiKey keys = s := by
  induction keys with
  | nil => simp at hmem
  | cons e rest ih =>
    obtain ⟨name, key⟩ := e
    unfold findServiceName
    by_cases hk : key = apiKey
    · simp only [if_pos hk]
      exact huniq name (by simp [hk])
    · simp only [if_neg hk]
      refine ih ?_ (fun n hn => huniq n (List.mem_cons_of_mem _ hn))
      rcases List.mem_cons.mp hmem with h | h
      · exact absurd (Prod.mk.inj h).2.symm hk
      · exact h

theorem getServiceName_withValue (r : Request) (name : String) :
    GetServiceName (r.WithContext (r.ctx.WithValue (ContextKey.string "service_name")
      (ContextValue.string name))) = (name, true) := by
  simp [GetServiceName, Request.WithContext, Context.WithValue, Context.Value]

/-- C8: for every key table and request, `ServiceAuthMiddleware` invokes the next handler
only if the `X-API-Key` header is non-empty and is the key configured for some service
name, and the service name then read by `GetServiceName` is a name whose configured key is
the header value; when the header is missing or empty, or no configured key equals it, the
answer is 401 and the next handler is not invoked. -/
theorem serviceAuth_only_configured_key (validAPIKeys : List (String × String))
    (r : Request) :
    (∀ r', (ServiceAuthMiddleware validAPIKeys r).result = HandlerResult.next r' →
        r.HeaderGet "X-API-Key" ≠ "" ∧
        ∃ name, (name, r.HeaderGet "X-API-Key") ∈ validAPIKeys ∧
          GetServiceName r' = (name, true)) ∧
      ((r.HeaderGet "X-API-Key" = "" ∨ ∀ name, (name, r.HeaderGet "X-API-Key") ∉ validAPIKeys) →
        (∃ body, (ServiceAuthMiddleware validAPIKeys r).result =
            HandlerResult.response 401 body) ∧
          ∀ r', (ServiceAuthMiddleware validAPIKeys r).result ≠ HandlerResult.next r') := by
  constructor
  · intro r' h
    unfold ServiceAuthMiddleware at h
    by_cases hk : r.HeaderGet "X-API-Key" = ""
    · simp [hk, httpError_unauthorized] at h
    · by_cases hs : findServiceName (r.HeaderGet "X-API-Key") validAPIKeys = ""
      · simp [hk, hs, httpError_unauthorized] at h
      · simp only [if_neg hk, if_neg hs] at h
        refine ⟨hk, findServiceName (r.HeaderGet "X-API-Key") validAPIKeys,
          findServiceName_mem _ _ hs, ?_⟩
        cases h
        exact getServiceName_withValue r _
  · intro h
    have hresp : ∃ body, (ServiceAuthMiddleware validAPIKeys r).result =
        HandlerResult.response 401 body := by
      unfold ServiceAuthMiddleware
      by_cases hk : r.HeaderGet "X-API-Key" = ""
      · exact ⟨"API key required\n", by simp [hk, httpError_unauthorized]⟩
      · have hs := findServiceName_of_not_mem _ validAPIKeys (h.resolve_left hk)
        exact ⟨"Invalid API key\n", by simp [hk, hs, httpError_unauthorized]⟩
    obtain ⟨body, hb⟩ := hresp
    exact ⟨⟨body, hb⟩, fun r' h' => by rw [hb] at h'; cases h'⟩

/-- C9 (as stated) fails: a table that configures the empty key for "notify" does not let
a request with that (empty) header through; in a table where "auth" and "notify" share a
key, visited in this order, the request is passed on under the name "auth" and not
"notify"; and a key configured for the empty service name is answered with 401. -/
theorem serviceAuth_configured_key_counterexample :
    (("notify", "") ∈ [("notify", "")] ∧
        (sampleRequest "" []).HeaderGet "X-API-Key" = "" ∧
        (ServiceAuthMiddleware [("notify", "")] (sampleRequest "" [])).result =
          HandlerResult.response 401 "API key required\n") ∧
      (("notify", "k1") ∈ [("auth", "k1"), ("notify", "k1")] ∧
        (sampleRequest "k1" []).HeaderGet "X-API-Key" = "k1" ∧
        ∃ r', (ServiceAuthMiddleware [("auth", "k1"), ("notify", "k1")]
            (sampleRequest "k1" [])).result = HandlerResult.next r' ∧
          GetServiceName r' = ("auth", true) ∧ GetServiceName r' ≠ ("notify", true)) ∧
      (("", "k1") ∈ [("", "k1")] ∧
        (sampleRequest "k1" []).HeaderGet "X-API-Key" = "k1" ∧
        (ServiceAuthMiddleware [("", "k1")] (sampleRequest "k1" [])).result =
          HandlerResult.response 401 "Invalid API key\n") := by
  refine ⟨⟨by decide, rfl, rfl⟩, ⟨by decide, rfl, ⟨_, rfl, rfl, by decide⟩⟩,
    by decide, rfl, rfl⟩

/-- C9 (amended): for every key table in which a non-empty key `k` is configured for the
non-empty service name `s` and for no other name, a request whose `X-API-Key` header is `k`
is passed to the next handler with service name `s` attached; and a request whose header
value equals no configured key is answered with 401. -/
theorem serviceAuth_unique_key_attaches_name (validAPIKeys : List (String × String))
    (r r2 : Request) (s k : String) (hk : k ≠ "") (hs : s ≠ "")
    (hmem : (s, k) ∈ validAPIKeys) (huniq : ∀ name, (name, k) ∈ validAPIKeys → name = s)
    (hheader : r.HeaderGet "X-API-Key" = k)
    (hnone : ∀ name, (name, r2.HeaderGet "X-API-Key") ∉ validAPIKeys) :
    (∃ r', (ServiceAuthMiddleware validAPIKeys r).result = HandlerResult.next r' ∧
        GetServiceName r' = (s, true)) ∧
      ∃ body, (ServiceAuthMiddleware validAPIKeys r2).result =
        HandlerResult.response 401 body := by
  constructor
  · have hfind := findServiceName_of_unique k s validAPIKeys hmem huniq
    refine ⟨_, ?_, getServiceName_withValue r s⟩
    simp [ServiceAuthMiddleware, hheader, hk, hfind, hs]
  · unfold ServiceAuthMiddleware
    by_cases hk2 : r2.HeaderGet "X-API-Key" = ""
    · exact ⟨"API key required\n", by simp [hk2, httpError_unauthorized]⟩
    · have hfind := findServiceName_of_not_mem _ validAPIKeys hnone
      exact ⟨"Invalid API key\n", by simp [hk2, hfind, httpError_unauthorized]⟩

theorem serviceAuth_unique_key_attaches_name_witness :
    ("k-notify" ≠ "" ∧ "notify" ≠ "" ∧
        ("notify", "k-notify") ∈ [("auth", "k-auth"), ("notify", "k-notify")] ∧
        (∀ name, (name, "k-notify") ∈ [("auth", "k-auth"), ("notify", "k-notify")] →
          name = "notify") ∧
        (sampleRequest "k-notify" []).HeaderGet "X-API-Key" = "k-notify" ∧
        ∀ name, (name, (sampleRequest "unknown" []).HeaderGet "X-API-Key") ∉
          [("auth", "k-auth"), ("notify", "k-notify")]) ∧
      ((∃ r', (ServiceAuthMiddleware [("auth", "k-auth"), ("notify", "k-notify")]
            (sampleRequest "k-notify" [])).result = HandlerResult.next r' ∧
          GetServiceName r' = ("notify", true)) ∧
        ∃ body, (ServiceAuthMiddleware [("auth", "k-auth"), ("notify", "k-notify")]
          (sampleRequest "unknown" [])).result = HandlerResult.response 401 body) :=
  have huniq : ∀ name, (name, "k-notify") ∈ [("auth", "k-auth"), ("notify", "k-notify")] →
      name = "notify" := by
    intro name h
    simpa using h
  have hnone : ∀ name, (name, (sampleRequest "unknown" []).HeaderGet "X-API-Key") ∉
      [("auth", "k-auth"), ("notify", "k-notify")] := by
    intro name h
    simp [sampleRequest] at h
  ⟨⟨by decide, by decide, by decide, huniq, rfl, hnone⟩,
    serviceAuth_unique_key_attaches_name [("auth", "k-auth"), ("notify", "k-notify")]
      (sampleRequest "k-notify" []) (sampleRequest "unknown" []) "notify" "k-notify"
      (by decide) (by decide) (by decide) huniq rfl hnone⟩

theorem mixedKeyLoop_of_not_mem (r : Request) (apiKey : String)
    (keys : List (String × String)) (h : ∀ name, (name, apiKey) ∉ keys) :
    mixedKeyLoop r apiKey keys = HandlerResult.response 401 "Invalid API key\n" := by
  induction keys with
  | nil => simp [mixedKeyLoop, httpError_unauthorized]
  | cons e rest ih =>
    obtain ⟨name, key⟩ := e
    unfold mixedKeyLoop
    by_cases hk : key = apiKey
    · exact absurd (by simp [hk]) (h name)
    · simp only [if_neg hk]
      exact ih (fun n hn => h n (List.mem_cons_of_mem _ hn))

theorem mixedKeyLoop_of_mem (apiKey : String) (keys : List (String × String))
    (h : ∃ name, (name, apiKey) ∈ keys) :
    ∃ name, (name, apiKey) ∈ keys ∧ ∀ r : Request, mixedKeyLoop r apiKey keys =
      HandlerResult.next (r.WithContext
        ((r.ctx.WithValue (ContextKey.string "service_name") (ContextValue.string name)).WithValue
          (ContextKey.string "auth_type") (ContextValue.string "service"))) := by
  induction keys with
  | nil => simp at h
  | cons e rest ih =>
    obtain ⟨name, key⟩ := e
    by_cases hk : key = apiKey
    · exact ⟨name, by simp [hk], fun r => by simp [mixedKeyLoop, hk]⟩
    · have hrest : ∃ n, (n, apiKey) ∈ rest := by
        obtain ⟨n, hn⟩ := h
        rcases List.mem_cons.mp hn with h1 | h1
        · exact absurd (Prod.mk.inj h1).2.symm hk
        · exact ⟨n, h1⟩
      obtain ⟨n, hn, hall⟩ := ih hrest
      exact ⟨n, List.mem_cons_of_mem _ hn, fun r => by simp [mixedKeyLoop, hk, hall r]⟩

theorem mixedAuth_of_header (service : AuthService) (keys : List (String × String))
    (r : Request) (hkey : r.HeaderGet "X-API-Key" ≠ "") :
    (MixedAuthMiddleware service keys r).result =
      mixedKeyLoop r (r.HeaderGet "X-API-Key") keys := by
  simp [MixedAuthMiddleware, hkey]

/-- C10: for every request whose `X-API-Key` header is non-empty, what `MixedAuthMiddleware`
does is fixed by the header value and the key table, whatever the cookies and whatever the
session service answers: if no configured key equals the header the answer is 401 and the
next handler is not invoked, and if some configured key equals it the next handler is
invoked with the name of such a service and auth type "service". -/
theorem mixedAuth_key_decides_alone (validAPIKeys : List (String × String)) (r : Request)
    (hkey : r.HeaderGet "X-API-Key" ≠ "") :
    ((∀ name, (name, r.HeaderGet "X-API-Key") ∉ validAPIKeys) →
        ∀ (service : AuthService) (cookies : List Cookie),
          (MixedAuthMiddleware service validAPIKeys { r with Cookies := cookies }).result =
            HandlerResult.response 401 "Invalid API key\n") ∧
      ((∃ name, (name, r.HeaderGet "X-API-Key") ∈ validAPIKeys) →
        ∃ name, (name, r.HeaderGet "X-API-Key") ∈ validAPIKeys ∧
          ∀ (service : AuthService) (cookies : List Cookie), ∃ r',
            (MixedAuthMiddleware service validAPIKeys { r with Cookies := cookies }).result =
              HandlerResult.next r' ∧
            GetServiceName r' = (name, true) ∧ GetAuthType r' = "service") ∧
      ∀ (service1 service2 : AuthService),
        (MixedAuthMiddleware service1 validAPIKeys r).result =
          (MixedAuthMiddleware service2 validAPIKeys r).result := by
  refine ⟨?_, ?_, ?_⟩
  · intro hnone service cookies
    rw [mixedAuth_of_header service validAPIKeys { r with Cookies := cookies } hkey]
    exact mixedKeyLoop_of_not_mem _ _ _ hnone
  · intro hsome
    obtain ⟨name, hmem, hall⟩ := mixedKeyLoop_of_mem _ validAPIKeys hsome
    refine ⟨name, hmem, fun service cookies => ?_⟩
    rw [mixedAuth_of_header service validAPIKeys { r with Cookies := cookies } hkey,
      hall { r with Cookies := cookies }]
    refine ⟨_, rfl, ?_, ?_⟩
    · simp [GetServiceName, Request.WithContext, Context.WithValue, Context.Value]
    · simp [GetAuthType, Request.WithContext, Context.WithValue, Context.Value]
  · intro service1 service2
    rw [mixedAuth_of_header service1 validAPIKeys r hkey,
      mixedAuth_of_header service2 validAPIKeys r hkey]

theorem mixedAuth_key_decides_alone_witness :
    (sampleRequest "wrong-key" []).HeaderGet "X-API-Key" ≠ "" ∧
      (((∀ name, (name, (sampleRequest "wrong-key" []).HeaderGet "X-API-Key") ∉
            [("notify", "k-notify")]) →
          ∀ (service : AuthService) (cookies : List Cookie),
            (MixedAuthMiddleware service [("notify", "k-notify")]
              { sampleRequest "wrong-key" [] with Cookies := cookies }).result =
                HandlerResult.response 401 "Invalid API key\n") ∧
        ((∃ name, (name, (sampleRequest "wrong-key" []).HeaderGet "X-API-Key") ∈
            [("notify", "k-notify")]) →
          ∃ name, (name, (sampleRequest "wrong-key" []).HeaderGet "X-API-Key") ∈
              [("notify", "k-notify")] ∧
            ∀ (service : AuthService) (cookies : List Cookie), ∃ r',
              (MixedAuthMiddleware service [("notify", "k-notify")]
                { sampleRequest "wrong-key" [] with Cookies := cookies }).result =
                  HandlerResult.next r' ∧
              GetServiceName r' = (name, true) ∧ GetAuthType r' = "service") ∧
        ∀ (service1 service2 : AuthService),
          (MixedAuthMiddleware service1 [("notify", "k-notify")]
              (sampleRequest "wrong-key" [])).result =
            (MixedAuthMiddleware service2 [("notify", "k-notify")]
              (sampleRequest "wrong-key" [])).result) :=
  ⟨by decide,
    mixedAuth_key_decides_alone [("notify", "k-notify")] (sampleRequest "wrong-key" [])
      (by decide)⟩

/-- An invalid key together with a valid session is answered 401, and a valid key with an
unreachable session service reaches the next handler as service "notify". -/
theorem mixedAuth_examples :
    (MixedAuthMiddleware acceptingService [("notify", "k-notify")]
        (sampleRequest "wrong-key" [{ Name := "session", Value := "abc" }])).result =
        HandlerResult.response 401 "Invalid API key\n" ∧
      ∃ r', (MixedAuthMiddleware unreachableService [("notify", "k-notify")]
          (sampleRequest "k-notify" [])).result = HandlerResult.next r' ∧
        GetServiceName r' = ("notify", true) ∧ GetAuthType r' = "service" :=
  ⟨rfl, _, rfl, rfl, rfl⟩


/-! ## `MixedAuthMiddleware` without an API key, `ProviderValidationMiddleware` -/

/-- C11: for every request whose `X-API-Key` header is missing (or empty),
`MixedAuthMiddleware` invokes the next handler if and only if the session check returns
no error and `valid` is true; the context passed on then carries the session data
(user id, provider) of the reply and `GetAuthType` returns "session"; in every other case,
transport and decode errors included, the answer is 401 and the next handler is not
invoked. -/
theorem mixedAuth_session_path (service : AuthService)
    (validAPIKeys : List (String × String)) (r : Request)
    (hno : r.HeaderGet "X-API-Key" = "") :
    ((∃ r', (MixedAuthMiddleware service validAPIKeys r).result = HandlerResult.next r') ↔
        ((ValidateSession service r.Cookies).2.2 = none ∧
          (ValidateSession service r.Cookies).1.Valid = true)) ∧
      (∀ r', (MixedAuthMiddleware service validAPIKeys r).result = HandlerResult.next r' →
        GetSessionDataFromContext r'.ctx =
            ({ UserID := (ValidateSession service r.Cookies).1.UserID,
               Provider := (ValidateSession service r.Cookies).1.Provider }, true) ∧
          GetAuthType r' = "session") ∧
      (¬ ((ValidateSession service r.Cookies).2.2 = none ∧
            (ValidateSession service r.Cookies).1.Valid = true) →
        (MixedAuthMiddleware service validAPIKeys r).result =
          HandlerResult.response 401 "Unauthorized\n") := by
  by_cases hc : (ValidateSession service r.Cookies).2.2 = none ∧
      (ValidateSession service r.Cookies).1.Valid = true
  · have hres : (MixedAuthMiddleware service validAPIKeys r).result =
        HandlerResult.next (r.WithContext
          ((SetSessionDataInContext r.ctx
            { UserID := (ValidateSession service r.Cookies).1.UserID,
              Provider := (ValidateSession service r.Cookies).1.Provider }).WithValue
            (ContextKey.string "auth_type") (ContextValue.string "session"))) := by
      simp [MixedAuthMiddleware, hno, hc]
    refine ⟨⟨fun _ => hc, fun _ => ⟨_, hres⟩⟩, ?_, fun h => absurd hc h⟩
    intro r' h
    rw [hres] at h
    cases h
    constructor
    · simp [GetSessionDataFromContext, SetSessionDataInContext, Request.WithContext,
        Context.WithValue, Context.Value, sessionContextKey]
    · simp [GetAuthType, Request.WithContext, Context.WithValue, Context.Value]
  · have hres : (MixedAuthMiddleware service validAPIKeys r).result =
        HandlerResult.response 401 "Unauthorized\n" := by
      simp only [MixedAuthMiddleware, hno, ne_eq, not_true_eq_false, if_false, if_neg hc,
        httpError_unauthorized]
      rfl
    refine ⟨⟨?_, fun h => absurd h hc⟩, ?_, fun _ => hres⟩
    · rintro ⟨r', h⟩
      rw [hres] at h
      cases h
    · intro r' h
      rw [hres] at h
      cases h

theorem mixedAuth_session_path_witness :
    (sampleRequest "" [{ Name := "session", Value := "abc" }]).HeaderGet "X-API-Key" = "" ∧
      (((∃ r', (MixedAuthMiddleware acceptingService [("notify", "k-notify")]
            (sampleRequest "" [{ Name := "session", Value := "abc" }])).result =
              HandlerResult.next r') ↔
          ((ValidateSession acceptingService
              (sampleRequest "" [{ Name := "session", Value := "abc" }]).Cookies).2.2 = none ∧
            (ValidateSession acceptingService
              (sampleRequest "" [{ Name := "session", Value := "abc" }]).Cookies).1.Valid =
                true)) ∧
        (∀ r', (MixedAuthMiddleware acceptingService [("notify", "k-notify")]
            (sampleRequest "" [{ Name := "session", Value := "abc" }])).result =
              HandlerResult.next r' →
          GetSessionDataFromContext r'.ctx =
              ({ UserID := (ValidateSession acceptingService
                    (sampleRequest "" [{ Name := "session", Value := "abc" }]).Cookies).1.UserID,
                 Provider := (ValidateSession acceptingService
                    (sampleRequest "" [{ Name := "session", Value := "abc" }]).Cookies).1.Provider },
                true) ∧
            GetAuthType r' = "session") ∧
        (¬ ((ValidateSession acceptingService
                (sampleRequest "" [{ Name := "session", Value := "abc" }]).Cookies).2.2 = none ∧
              (ValidateSession acceptingService
                (sampleRequest "" [{ Name := "session", Value := "abc" }]).Cookies).1.Valid =
                  true) →
          (MixedAuthMiddleware acceptingService [("notify", "k-notify")]
            (sampleRequest "" [{ Name := "session", Value := "abc" }])).result =
              HandlerResult.response 401 "Unauthorized\n")) :=
  ⟨rfl, mixedAuth_session_path acceptingService [("notify", "k-notify")]
    (sampleRequest "" [{ Name := "session", Value := "abc" }]) rfl⟩

/-- Without an API key a valid session reaches the next handler tagged "session", and an
unreachable session service is answered with 401. -/
theorem mixedAuth_session_examples :
    (∃ r', (MixedAuthMiddleware acceptingService [("notify", "k-notify")]
          (sampleRequest "" [{ Name := "session", Value := "abc" }])).result =
            HandlerResult.next r' ∧
        GetSessionDataFromContext r'.ctx = ({ UserID := "u1", Provider := "google" }, true) ∧
        GetAuthType r' = "session") ∧
      (MixedAuthMiddleware unreachableService [("notify", "k-notify")]
        (sampleRequest "" [])).result = HandlerResult.response 401 "Unauthorized\n" :=
  ⟨⟨_, rfl, rfl, rfl⟩, rfl⟩

theorem getSessionData_eq_true_iff (ctx : Context) (d : UserSessionData) :
    GetSessionDataFromContext ctx = (d, true) ↔
      ctx.Value sessionContextKey = some (ContextValue.userSessionData d) := by
  unfold GetSessionDataFromContext
  cases h : ctx.Value sessionContextKey with
  | none => simp
  | some v =>
    cases v with
    | string s => simp
    | userSessionData d2 => simp

theorem getSessionData_snd_false_iff (ctx : Context) :
    (GetSessionDataFromContext ctx).2 = false ↔
      ∀ d, ctx.Value sessionContextKey ≠ some (ContextValue.userSessionData d) := by
  unfold GetSessionDataFromContext
  cases h : ctx.Value sessionContextKey with
  | none => simp
  | some v =>
    cases v with
    | string s => simp
    | userSessionData d2 => simp

theorem providerValidationMiddleware_of_session (appName appDomains : String) (r : Request)
    (d : UserSessionData) (hd : GetSessionDataFromContext r.ctx = (d, true))
    (hp : d.Provider ≠ "") :
    (ProviderValidationMiddleware appName appDomains r).result =
      match ValidateSessionProvider d.Provider appName appDomains with
      | some pvErr => HandlerResult.response 403 (pvErr.Message ++ "\n")
      | none => HandlerResult.next r := by
  rw [getSessionData_eq_true_iff] at hd
  unfold ProviderValidationMiddleware
  simp only [GetSessionContextKey, hd, if_neg hp]
  cases ValidateSessionProvider d.Provider appName appDomains with
  | none => rfl
  | some e => simp [httpError, StatusForbidden, bodyAllowedForStatus]

/-- C12: for every request whose context carries session data with a non-empty provider,
`ProviderValidationMiddleware appName appDomains` invokes the next handler if and only if
`ValidateSessionProvider` accepts the provider for `appName`; otherwise it answers 403 with
the message of the validation error, which for a provider outside the allowed list ends
with the allowed providers of the resolved descriptor joined by ", ". A request with no
session data in its context gets 500, one with an empty provider 401, and in none of
these cases is the next handler invoked. -/
theorem providerValidationMiddleware_behaviour (appName appDomains : String) (r : Request) :
    (∀ d, GetSessionDataFromContext r.ctx = (d, true) → d.Provider ≠ "" →
        (((∃ r', (ProviderValidationMiddleware appName appDomains r).result =
              HandlerResult.next r') ↔
            ValidateSessionProvider d.Provider appName appDomains = none) ∧
          (ValidateSessionProvider d.Provider appName appDomains = none →
            (ProviderValidationMiddleware appName appDomains r).result =
              HandlerResult.next r) ∧
          (∀ e, ValidateSessionProvider d.Provider appName appDomains = some e →
            (ProviderValidationMiddleware appName appDomains r).result =
              HandlerResult.response 403 (e.Message ++ "\n")) ∧
          (d.Provider ∉ (GetAppByName appName).AuthMethods →
            (ProviderValidationMiddleware appName appDomains r).result =
              HandlerResult.response 403
                ("Provider '" ++ d.Provider ++ "' is not allowed for app '" ++ appName ++
                  "' (" ++ (GetAppByName appName).DisplayName ++ "). Allowed providers: " ++
                  stringsJoin (GetAppByName appName).AuthMethods ", " ++ "\n")))) ∧
      ((GetSessionDataFromContext r.ctx).2 = false →
        (ProviderValidationMiddleware appName appDomains r).result =
          HandlerResult.response 500 "Session data not found in context\n") ∧
      (∀ d, GetSessionDataFromContext r.ctx = (d, true) → d.Provider = "" →
        (ProviderValidationMiddleware appName appDomains r).result =
          HandlerResult.response 401 "Provider information not available\n") := by
  refine ⟨?_, ?_, ?_⟩
  · intro d hd hp
    have hres := providerValidationMiddleware_of_session appName appDomains r d hd hp
    refine ⟨?_, ?_, ?_, ?_⟩
    · constructor
      · rintro ⟨r', h⟩
        rw [hres] at h
        cases hv : ValidateSessionProvider d.Provider appName appDomains with
        | none => rfl
        | some e => rw [hv] at h; cases h
      · intro hv
        exact ⟨r, by rw [hres, hv]⟩
    · intro hv
      rw [hres, hv]
    · intro e hv
      rw [hres, hv]
    · intro hnot
      rw [hres, validateSessionProvider_of_ne_empty _ _ _ hp,
        checkAllowed_of_not_mem _ _ _ hnot]
      rfl
  · intro hno
    rw [getSessionData_snd_false_iff] at hno
    unfold ProviderValidationMiddleware
    simp only [GetSessionContextKey]
    cases hv : r.ctx.Value sessionContextKey with
    | none => simp [httpError, StatusInternalServerError, bodyAllowedForStatus]
    | some v =>
      cases v with
      | string s => simp [httpError, StatusInternalServerError, bodyAllowedForStatus]
      | userSessionData d2 => exact absurd hv (hno d2)
  · intro d hd hp
    rw [getSessionData_eq_true_iff] at hd
    unfold ProviderValidationMiddleware
    simp [GetSessionContextKey, hd, hp, httpError_unauthorized]

/-- ProviderValidationMiddleware on the files app: "github" passes, "email" is answered
403 with the list of allowed providers, an empty provider 401, no session data 500. -/
theorem providerValidationMiddleware_examples :
    (ProviderValidationMiddleware "files" ""
        (sessionRequest { UserID := "u1", Provider := "github" })).result =
        HandlerResult.next (sessionRequest { UserID := "u1", Provider := "github" }) ∧
      (ProviderValidationMiddleware "files" ""
        (sessionRequest { UserID := "u1", Provider := "email" })).result =
        HandlerResult.response 403
          "Provider 'email' is not allowed for app 'files' (Files). Allowed providers: google, microsoftonline, github\n" ∧
      (ProviderValidationMiddleware "files" ""
        (sessionRequest { UserID := "u1", Provider := "" })).result =
        HandlerResult.response 401 "Provider information not available\n" ∧
      (ProviderValidationMiddleware "files" "" (sampleRequest "" [])).result =
        HandlerResult.response 500 "Session data not found in context\n" :=
  ⟨rfl, rfl, rfl, rfl⟩

/-! ## The registry lookups and the `next` parameter -/

theorem getAppByRoute_mem (route : String) : GetAppByRoute route ∈ AppConfigs := by
  unfold GetAppByRoute
  split
  · next config h => exact List.mem_of_find?_eq_some h
  · exact List.get_mem _ _ _

theorem getAppByDomain_mem (domain : String) : GetAppByDomain domain ∈ AppConfigs := by
  unfold GetAppByDomain
  split
  · next config h => exact List.mem_of_find?_eq_some h
  · exact List.get_mem _ _ _

theorem appConfigs_domain_in_family :
    ∀ c ∈ AppConfigs, stringsHasSuffix c.Domain ".hstles.com" = true := by decide

theorem stringsHasSuffix_append (sub suffix : String) :
    stringsHasSuffix (sub ++ suffix) suffix = true := by
  unfold stringsHasSuffix
  rw [List.isSuffixOf_iff_suffix, String.data_append]
  exact List.suffix_append _ _

/-- With a non-empty `next` that is no valid URL, the result is the URL of the entry
`GetAppByName` yields, with a nil error. -/
theorem validateNextParameter_of_not_valid (parse : RequestURIParser) (next : String)
    (hne : next ≠ "") (hvalid : IsValidURL parse next = false) :
    ValidateNextParameter parse next = ((GetAppByName next).GetURL, none) := by
  simp [ValidateNextParameter, hne, hvalid, getAppByName_appName_ne_empty]

/-- The characterisation of `List.find?` used for the lookups: the entry found is the
first one that satisfies the test, and nothing is found only when no entry satisfies it. -/
theorem find_first_spec {α : Type} (p : α → Bool) (l : List α) :
    (∃ c l₁ l₂, l.find? p = some c ∧ l = l₁ ++ c :: l₂ ∧ p c = true ∧ ∀ d ∈ l₁, p d = false) ∨
      (l.find? p = none ∧ ∀ d ∈ l, p d = false) := by
  induction l with
  | nil => exact Or.inr ⟨rfl, by simp⟩
  | cons a rest ih =>
    by_cases ha : p a = true
    · exact Or.inl ⟨a, [], rest, by simp [ha], rfl, ha, by simp⟩
    · have ha2 : p a = false := by simpa using ha
      rcases ih with ⟨c, l₁, l₂, hf, hl, hc, hpre⟩ | ⟨hf, hall⟩
      · refine Or.inl ⟨c, a :: l₁, l₂, by simp [ha2, hf], by simp [hl], hc, ?_⟩
        intro d hd
        rcases List.mem_cons.mp hd with h | h
        · rw [h]; exact ha2
        · exact hpre d h
      · refine Or.inr ⟨by simp [ha2, hf], ?_⟩
        intro d hd
        rcases List.mem_cons.mp hd with h | h
        · rw [h]; exact ha2
        · exact hall d h

/-- C13: for every string `next`, the URL returned by `ValidateNextParameter` is either
`next` itself, and then `IsValidURL next` holds (`next` parses and the host of the parsed
URL ends with ".hstles.com"), or "https://" followed by the `Domain` of a registry entry,
which ends with ".hstles.com" as well: no URL with a foreign host is returned. -/
theorem validateNextParameter_never_foreign (parse : RequestURIParser) (next : String) :
    ((ValidateNextParameter parse next).1 = next ∧ IsValidURL parse next = true ∧
        ∃ u, parse next = some u ∧ stringsHasSuffix u.Host ".hstles.com" = true) ∨
      ∃ c ∈ AppConfigs, (ValidateNextParameter parse next).1 = "https://" ++ c.Domain ∧
        stringsHasSuffix c.Domain ".hstles.com" = true := by
  by_cases hne : next = ""
  · refine Or.inr ⟨GetAppByRoute "/", getAppByRoute_mem _, ?_,
      appConfigs_domain_in_family _ (getAppByRoute_mem _)⟩
    simp [ValidateNextParameter, hne, AppConfig.GetURL]
  · cases hvalid : IsValidURL parse next with
    | true =>
      refine Or.inl ⟨by simp [ValidateNextParameter, hne, hvalid], rfl, ?_⟩
      unfold IsValidURL at hvalid
      cases hp : parse next with
      | none => simp [hp] at hvalid
      | some u =>
        refine ⟨u, rfl, ?_⟩
        simpa [hp] using hvalid
    | false =>
      refine Or.inr ⟨GetAppByName next, getAppByName_mem _, ?_,
        appConfigs_domain_in_family _ (getAppByName_mem _)⟩
      rw [validateNextParameter_of_not_valid parse next hne hvalid]
      rfl

/-- C14: "https://evil.example.com" is non-empty, no valid URL of the hstles.com family
and no registered app name, and so is "nonsense"; for both `ValidateNextParameter` returns
the URL of the organisation entry with a nil error, not the root app's URL
"https://files.hstles.com" with an error. -/
theorem validateNextParameter_invalid_next_no_error :
    IsValidURL exampleParseRequestURI "https://evil.example.com" = false ∧
      (∀ c ∈ AppConfigs, c.AppName ≠ "https://evil.example.com") ∧
      ValidateNextParameter exampleParseRequestURI "https://evil.example.com" =
        ("https://organisation.hstles.com", none) ∧
      ValidateNextParameter exampleParseRequestURI "nonsense" =
        ("https://organisation.hstles.com", none) ∧
      (GetAppByRoute "/").GetURL = "https://files.hstles.com" := by
  refine ⟨by decide, by decide, by decide, by decide, by decide⟩

/-- C15 (as stated) fails: "https://files.hstles.com:8443/x" and
"https://FILES.HSTLES.COM/x" are absolute URLs whose host name is a subdomain of
hstles.com (the host name of the first is "files.hstles.com", that of the second is
"files.hstles.com" up to case), but the `Host` of the parsed URL keeps the port and the
case and does not end with ".hstles.com": `ValidateNextParameter` does not return them
unchanged, it returns the URL of the organisation entry. -/
theorem validateNextParameter_subdomain_port_counterexample :
    (exampleParseRequestURI "https://files.hstles.com:8443/x" =
          some { Scheme := "https", Opaque := "", Host := "files.hstles.com:8443",
                 Path := "/x", RawQuery := "" } ∧
        ({ Scheme := "https", Opaque := "", Host := "files.hstles.com:8443", Path := "/x",
           RawQuery := "" } : URL).Hostname = "files" ++ ".hstles.com" ∧
        ValidateNextParameter exampleParseRequestURI "https://files.hstles.com:8443/x" =
          ("https://organisation.hstles.com", none) ∧
        ValidateNextParameter exampleParseRequestURI "https://files.hstles.com:8443/x" ≠
          ("https://files.hstles.com:8443/x", none)) ∧
      (exampleParseRequestURI "https://FILES.HSTLES.COM/x" =
          some { Scheme := "https", Opaque := "", Host := "FILES.HSTLES.COM", Path := "/x",
                 RawQuery := "" } ∧
        stringsToLower "FILES.HSTLES.COM" = "files" ++ ".hstles.com" ∧
        ValidateNextParameter exampleParseRequestURI "https://FILES.HSTLES.COM/x" =
          ("https://organisation.hstles.com", none) ∧
        ValidateNextParameter exampleParseRequestURI "https://FILES.HSTLES.COM/x" ≠
          ("https://FILES.HSTLES.COM/x", none)) := by
  refine ⟨⟨by decide, by decide, by decide, by decide⟩,
    by decide, by decide, by decide, by decide⟩

/-- C15 (amended): for every `next` that parses as a URL whose `Host` field (the authority
without user information, with any port, case preserved) ends with ".hstles.com", that is
some label followed by ".hstles.com", `ValidateNextParameter` returns `next` itself with a
nil error. The parser rejects the empty string, so `next` is not empty. -/
theorem validateNextParameter_subdomain_unchanged (parse : RequestURIParser)
    (next : String) (u : URL) (hne : next ≠ "") (hparse : parse next = some u)
    (hhost : ∃ sub : String, u.Host = sub ++ ".hstles.com") :
    ValidateNextParameter parse next = (next, none) := by
  obtain ⟨sub, hsub⟩ := hhost
  have hvalid : IsValidURL parse next = true := by
    simp [IsValidURL, hparse, hsub, stringsHasSuffix_append]
  simp [ValidateNextParameter, hne, hvalid]

theorem validateNextParameter_subdomain_unchanged_witness :
    ("https://files.hstles.com/x" ≠ "" ∧
        exampleParseRequestURI "https://files.hstles.com/x" =
          some { Scheme := "https", Opaque := "", Host := "files.hstles.com", Path := "/x",
                 RawQuery := "" } ∧
        ∃ sub : String, "files.hstles.com" = sub ++ ".hstles.com") ∧
      ValidateNextParameter exampleParseRequestURI "https://files.hstles.com/x" =
        ("https://files.hstles.com/x", none) :=
  ⟨⟨by decide, by decide, "files", by decide⟩,
    validateNextParameter_subdomain_unchanged exampleParseRequestURI
      "https://files.hstles.com/x"
      { Scheme := "https", Opaque := "", Host := "files.hstles.com", Path := "/x",
        RawQuery := "" }
      (by decide) (by decide) ⟨"files", by decide⟩⟩

/-- C16 (as stated) fails: "https://hstles.com/x" parses with host exactly "hstles.com",
and `ValidateNextParameter` does not return it unchanged: it returns the URL of the
organisation entry. -/
theorem validateNextParameter_parent_domain_counterexample :
    exampleParseRequestURI "https://hstles.com/x" =
        some { Scheme := "https", Opaque := "", Host := "hstles.com", Path := "/x",
               RawQuery := "" } ∧
      ValidateNextParameter exampleParseRequestURI "https://hstles.com/x" =
        ("https://organisation.hstles.com", none) ∧
      ValidateNextParameter exampleParseRequestURI "https://hstles.com/x" ≠
        ("https://hstles.com/x", none) := by
  refine ⟨by decide, by decide, by decide⟩

/-- C16 (amended): for every `next` that parses as a URL whose host is exactly the parent
domain "hstles.com", `IsValidURL next` is false, since only hosts ending with
".hstles.com" are accepted, and `ValidateNextParameter` returns "https://" followed by
the `Domain` of a registry entry. -/
theorem validateNextParameter_parent_domain_rejected (parse : RequestURIParser)
    (next : String) (u : URL) (hparse : parse next = some u) (hhost : u.Host = "hstles.com") :
    IsValidURL parse next = false ∧
      ∃ c ∈ AppConfigs, (ValidateNextParameter parse next).1 = "https://" ++ c.Domain := by
  have hvalid : IsValidURL parse next = false := by
    have hs : stringsHasSuffix "hstles.com" ".hstles.com" = false := by decide
    simp [IsValidURL, hparse, hhost, hs]
  refine ⟨hvalid, ?_⟩
  by_cases hne : next = ""
  · refine ⟨GetAppByRoute "/", getAppByRoute_mem _, ?_⟩
    simp [ValidateNextParameter, hne, AppConfig.GetURL]
  · refine ⟨GetAppByName next, getAppByName_mem _, ?_⟩
    rw [validateNextParameter_of_not_valid parse next hne hvalid]
    rfl

theorem validateNextParameter_parent_domain_rejected_witness :
    (exampleParseRequestURI "https://hstles.com/x" =
          some { Scheme := "https", Opaque := "", Host := "hstles.com", Path := "/x",
                 RawQuery := "" } ∧
        "hstles.com" = "hstles.com") ∧
      (IsValidURL exampleParseRequestURI "https://hstles.com/x" = false ∧
        ∃ c ∈ AppConfigs,
          (ValidateNextParameter exampleParseRequestURI "https://hstles.com/x").1 =
            "https://" ++ c.Domain) :=
  ⟨⟨by decide, rfl⟩,
    validateNextParameter_parent_domain_rejected exampleParseRequestURI
      "https://hstles.com/x"
      { Scheme := "https", Opaque := "", Host := "hstles.com", Path := "/x", RawQuery := "" }
      (by decide) rfl⟩

/-- C17: for every registered app name `n`, the name of the registry entry `c`,
`ValidateNextParameter n` returns "https://" followed by `c.Domain` with a nil error.
A bare app name is no request URI (it has no scheme and does not start with "/"), so
the parser rejects it. -/
theorem validateNextParameter_registered_name (parse : RequestURIParser) (c : AppConfig)
    (hc : c ∈ AppConfigs) (n : String) (hn : n = c.AppName) (hparse : parse n = none) :
    ValidateNextParameter parse n = ("https://" ++ c.Domain, none) := by
  subst hn
  have hvalid : IsValidURL parse c.AppName = false := by simp [IsValidURL, hparse]
  rw [validateNextParameter_of_not_valid parse _ (appConfigs_appName_ne_empty c hc) hvalid,
    getAppByName_registered c hc]
  rfl

theorem validateNextParameter_registered_name_witness :
    (GetAppByName "files" ∈ AppConfigs ∧ "files" = (GetAppByName "files").AppName ∧
        exampleParseRequestURI "files" = none) ∧
      ValidateNextParameter exampleParseRequestURI "files" =
        ("https://" ++ (GetAppByName "files").Domain, none) :=
  ⟨⟨by decide, by decide, by decide⟩,
    validateNextParameter_registered_name exampleParseRequestURI (GetAppByName "files")
      (by decide) "files" (by decide) (by decide)⟩

/-- C18: `ValidateNextParameter ""` returns the root app's URL, `GetURL` of the registry
entry whose `Route` is "/", that is "https://files.hstles.com", with a nil error. -/
theorem validateNextParameter_empty (parse : RequestURIParser) :
    ValidateNextParameter parse "" = ((GetAppByRoute "/").GetURL, none) ∧
      GetAppByRoute "/" ∈ AppConfigs ∧ (GetAppByRoute "/").Route = "/" ∧
      (GetAppByRoute "/").GetURL = "https://files.hstles.com" := by
  refine ⟨by simp [ValidateNextParameter], by decide, by decide, by decide⟩

/-- C19: for every input string the three lookups return a value (the default indices 2
and 0 are within the bounds of the table): the first registry entry whose `Route`,
`AppName` or `Domain` equals the input, and when no entry matches the designated default
(`AppConfigs[2]`, `AppConfigs[2]` and `AppConfigs[0]`), which is an entry of the
registry. -/
theorem lookups_first_match_or_default (s : String) :
    (2 < AppConfigs.length ∧ 0 < AppConfigs.length) ∧
      ((∃ l₁ l₂, AppConfigs = l₁ ++ GetAppByRoute s :: l₂ ∧ (GetAppByRoute s).Route = s ∧
            ∀ d ∈ l₁, d.Route ≠ s) ∨
          ((∀ d ∈ AppConfigs, d.Route ≠ s) ∧ AppConfigs[2]? = some (GetAppByRoute s))) ∧
      ((∃ l₁ l₂, AppConfigs = l₁ ++ GetAppByName s :: l₂ ∧ (GetAppByName s).AppName = s ∧
            ∀ d ∈ l₁, d.AppName ≠ s) ∨
          ((∀ d ∈ AppConfigs, d.AppName ≠ s) ∧ AppConfigs[2]? = some (GetAppByName s))) ∧
      ((∃ l₁ l₂, AppConfigs = l₁ ++ GetAppByDomain s :: l₂ ∧ (GetAppByDomain s).Domain = s ∧
            ∀ d ∈ l₁, d.Domain ≠ s) ∨
          ((∀ d ∈ AppConfigs, d.Domain ≠ s) ∧ AppConfigs[0]? = some (GetAppByDomain s))) ∧
      GetAppByRoute s ∈ AppConfigs ∧ GetAppByName s ∈ AppConfigs ∧
      GetAppByDomain s ∈ AppConfigs := by
  refine ⟨⟨by decide, by decide⟩, ?_, ?_, ?_, getAppByRoute_mem s, getAppByName_mem s,
    getAppByDomain_mem s⟩
  · rcases find_first_spec (fun config : AppConfig => decide (config.Route = s)) AppConfigs with
      ⟨c, l₁, l₂, hf, hl, hc, hpre⟩ | ⟨hf, hall⟩
    · have hres : GetAppByRoute s = c := by simp [GetAppByRoute, hf]
      rw [hres]
      exact Or.inl ⟨l₁, l₂, hl, by simpa using hc, fun d hd => by simpa using hpre d hd⟩
    · have hres : GetAppByRoute s = AppConfigs.get ⟨2, by decide⟩ := by
        simp [GetAppByRoute, hf]
      rw [hres]
      exact Or.inr ⟨fun d hd => by simpa using hall d hd, by decide⟩
  · rcases find_first_spec (fun config : AppConfig => decide (config.AppName = s)) AppConfigs with
      ⟨c, l₁, l₂, hf, hl, hc, hpre⟩ | ⟨hf, hall⟩
    · have hres : GetAppByName s = c := by simp [GetAppByName, hf]
      rw [hres]
      exact Or.inl ⟨l₁, l₂, hl, by simpa using hc, fun d hd => by simpa using hpre d hd⟩
    · have hres : GetAppByName s = AppConfigs.get ⟨2, by decide⟩ := by
        simp [GetAppByName, hf]
      rw [hres]
      exact Or.inr ⟨fun d hd => by simpa using hall d hd, by decide⟩
  · rcases find_first_spec (fun config : AppConfig => decide (config.Domain = s)) AppConfigs with
      ⟨c, l₁, l₂, hf, hl, hc, hpre⟩ | ⟨hf, hall⟩
    · have hres : GetAppByDomain s = c := by simp [GetAppByDomain, hf]
      rw [hres]
      exact Or.inl ⟨l₁, l₂, hl, by simpa using hc, fun d hd => by simpa using hpre d hd⟩
    · have hres : GetAppByDomain s = AppConfigs.get ⟨0, by decide⟩ := by
        simp [GetAppByDomain, hf]
      rw [hres]
      exact Or.inr ⟨fun d hd => by simpa using hall d hd, by decide⟩

/-- C20 (as stated) fails: "/zzz" is no registered route and "zzz" no registered name, and
`GetAppByRoute "/zzz"` and `GetAppByName "zzz"` fall back to the same row, the
"/organisation" row; there are two different defaults, not three. -/
theorem lookup_defaults_counterexample :
    (∀ c ∈ AppConfigs, c.Route ≠ "/zzz") ∧ (∀ c ∈ AppConfigs, c.AppName ≠ "zzz") ∧
      (∀ c ∈ AppConfigs, c.Domain ≠ "zzz.example.com") ∧
      GetAppByRoute "/zzz" = GetAppByName "zzz" ∧
      (GetAppByRoute "/zzz").Route = "/organisation" ∧
      (GetAppByName "zzz").Route = "/organisation" ∧
      (GetAppByDomain "zzz.example.com").Route = "/" := by
  refine ⟨by decide, by decide, by decide, by decide, by decide, by decide, by decide⟩

/-- C20 (amended): for inputs that match no registry entry the three lookups fall back to
two different default descriptors: `GetAppByRoute` and `GetAppByName` both return
`AppConfigs[2]`, the "/organisation" row, and `GetAppByDomain` returns `AppConfigs[0]`,
the "/" row, which is a different row. -/
theorem lookup_defaults (route name domain : String)
    (hroute : ∀ c ∈ AppConfigs, c.Route ≠ route) (hname : ∀ c ∈ AppConfigs, c.AppName ≠ name)
    (hdomain : ∀ c ∈ AppConfigs, c.Domain ≠ domain) :
    AppConfigs[2]? = some (GetAppByRoute route) ∧ AppConfigs[2]? = some (GetAppByName name) ∧
      AppConfigs[0]? = some (GetAppByDomain domain) ∧
      GetAppByRoute route = GetAppByName name ∧
      (GetAppByRoute route).Route = "/organisation" ∧ (GetAppByDomain domain).Route = "/" ∧
      GetAppByDomain domain ≠ GetAppByRoute route := by
  have h1 : GetAppByRoute route = AppConfigs.get ⟨2, by decide⟩ := by
    have hf : AppConfigs.find? (fun config => decide (config.Route = route)) = none := by
      rw [List.find?_eq_none]
      intro x hx
      simpa using hroute x hx
    simp [GetAppByRoute, hf]
  have h2 : GetAppByName name = AppConfigs.get ⟨2, by decide⟩ := by
    have hf : AppConfigs.find? (fun config => decide (config.AppName = name)) = none := by
      rw [List.find?_eq_none]
      intro x hx
      simpa using hname x hx
    simp [GetAppByName, hf]
  have h3 : GetAppByDomain domain = AppConfigs.get ⟨0, by decide⟩ := by
    have hf : AppConfigs.find? (fun config => decide (config.Domain = domain)) = none := by
      rw [List.find?_eq_none]
      intro x hx
      simpa using hdomain x hx
    simp [GetAppByDomain, hf]
  rw [h1, h2, h3]
  refine ⟨by decide, by decide, by decide, rfl, by decide, by decide, by decide⟩

theorem lookup_defaults_witness :
    ((∀ c ∈ AppConfigs, c.Route ≠ "/zzz") ∧ (∀ c ∈ AppConfigs, c.AppName ≠ "zzz") ∧
        ∀ c ∈ AppConfigs, c.Domain ≠ "zzz.example.com") ∧
      (AppConfigs[2]? = some (GetAppByRoute "/zzz") ∧
        AppConfigs[2]? = some (GetAppByName "zzz") ∧
        AppConfigs[0]? = some (GetAppByDomain "zzz.example.com") ∧
        GetAppByRoute "/zzz" = GetAppByName "zzz" ∧
        (GetAppByRoute "/zzz").Route = "/organisation" ∧
        (GetAppByDomain "zzz.example.com").Route = "/" ∧
        GetAppByDomain "zzz.example.com" ≠ GetAppByRoute "/zzz") :=
  ⟨⟨by decide, by decide, by decide⟩,
    lookup_defaults "/zzz" "zzz" "zzz.example.com" (by decide) (by decide) (by decide)⟩


/-! ## The registry: uniqueness and lookups by domain -/

/-- C21 (as stated) fails: `GetAppByDomain "files.hstles.com"` returns the services entry,
the first of the two entries with that domain, so for the files entry `e` the `AppName` of
`GetAppByDomain e.Domain` is "services" and not "files". -/
theorem getAppByDomain_files_counterexample :
    (GetAppByRoute "/files").AppName = "files" ∧ (GetAppByName "files").AppName = "files" ∧
      (GetAppByDomain "files.hstles.com").AppName = "services" ∧
      GetAppByName "files" ∈ AppConfigs ∧
      (GetAppByDomain (GetAppByName "files").Domain).AppName ≠
        (GetAppByName "files").AppName := by
  refine ⟨by decide, by decide, by decide, by decide, by decide⟩

/-- C21 (amended): `GetAppByRoute "/files"` and `GetAppByName "files"` return the
descriptor whose `AppName` is "files", and `GetAppByDomain "files.hstles.com"` returns the
first entry with that domain, whose `AppName` is "services"; for every registry entry `e`,
`GetAppByDomain e.Domain` has the domain of `e`, and it has the `AppName` of `e` for every
entry other than the files entry. -/
theorem getAppByDomain_first_of_domain :
    (GetAppByRoute "/files").AppName = "files" ∧ (GetAppByName "files").AppName = "files" ∧
      (GetAppByDomain "files.hstles.com").AppName = "services" ∧
      (∀ e ∈ AppConfigs, (GetAppByDomain e.Domain).Domain = e.Domain) ∧
      ∀ e ∈ AppConfigs, e.AppName ≠ "files" →
        (GetAppByDomain e.Domain).AppName = e.AppName := by
  refine ⟨by decide, by decide, by decide, by decide, by decide⟩

/-- C22: in the registry no two entries share an `AppName` and no two entries share a
`Route`; for every registry entry `e`, `GetAppByName e.AppName` is `e` and
`GetAppByRoute e.Route` is `e`. -/
theorem registry_names_routes_unique :
    (AppConfigs.map AppConfig.AppName).Nodup ∧ (AppConfigs.map AppConfig.Route).Nodup ∧
      (∀ e ∈ AppConfigs, ∀ f ∈ AppConfigs, e.AppName = f.AppName → e = f) ∧
      (∀ e ∈ AppConfigs, ∀ f ∈ AppConfigs, e.Route = f.Route → e = f) ∧
      ∀ e ∈ AppConfigs, GetAppByName e.AppName = e ∧ GetAppByRoute e.Route = e := by
  refine ⟨by decide, by decide, by decide, by decide, by decide⟩

/-! ## The validator as it behaves: the fallback chain is never entered -/

theorem message_ne_not_found_of_head (c : Char) (rest a : String)
    (hc : c ≠ Char.ofNat 65) :
    String.mk (c :: rest.data) ≠ "App configuration not found for app: " ++ a := by
  intro h
  have hd := congrArg String.data h
  rw [String.data_append] at hd
  have hlit : ("App configuration not found for app: " : String).data =
      Char.ofNat 65 :: ("pp configuration not found for app: " : String).data := by decide
  rw [hlit] at hd
  exact hc (List.cons.inj hd).1

theorem isProviderAllowed_iff (p a : String) :
    IsProviderAllowed p a = true ↔ p ≠ "" ∧ p ∈ (GetAppByName a).AuthMethods := by
  unfold IsProviderAllowed
  by_cases hp : p = ""
  · subst hp
    simp [validateSessionProvider_empty]
  · rw [validateSessionProvider_of_ne_empty p a "" hp, Option.isNone_iff_eq_none,
      checkAllowed_eq_none_iff]
    simp [hp]

theorem getAllowedProvidersForApp_eq (a : String) :
    GetAllowedProvidersForApp a = (GetAppByName a).AuthMethods := by
  simp [GetAllowedProvidersForApp, getAppByName_appName_ne_empty]

/-- C27: for every provider `p`, app name `a` and hints `d1`, `d2`,
`ValidateSessionProvider p a d1` and `ValidateSessionProvider p a d2` are the same result,
which is `nil` if and only if `p` is non-empty and an element of
`(GetAppByName a).AuthMethods`; an app name matching no registered name is judged against
the organisation entry's list (google, microsoftonline), and the error "App configuration
not found for app" is never returned. -/
theorem validateSessionProvider_ignores_hint (p a d1 d2 : String) :
    ValidateSessionProvider p a d1 = ValidateSessionProvider p a d2 ∧
      (ValidateSessionProvider p a d1 = none ↔
        p ≠ "" ∧ p ∈ (GetAppByName a).AuthMethods) ∧
      ((∀ c ∈ AppConfigs, c.AppName ≠ a) →
        (GetAppByName a).AppName = "organisation" ∧
          (GetAppByName a).AuthMethods = ["google", "microsoftonline"]) ∧
      (GetAppByName a).AppName ≠ "" ∧
      ∀ e, ValidateSessionProvider p a d1 = some e →
        e.Message ≠ "App configuration not found for app: " ++ a := by
  refine ⟨?_, ?_, ?_, getAppByName_appName_ne_empty a, ?_⟩
  · by_cases hp : p = ""
    · subst hp
      rw [validateSessionProvider_empty, validateSessionProvider_empty]
    · rw [validateSessionProvider_of_ne_empty p a d1 hp,
        validateSessionProvider_of_ne_empty p a d2 hp]
  · by_cases hp : p = ""
    · subst hp
      simp [validateSessionProvider_empty]
    · rw [validateSessionProvider_of_ne_empty p a d1 hp, checkAllowed_eq_none_iff]
      simp [hp]
  · intro hno
    have hf : AppConfigs.find? (fun config => decide (config.AppName = a)) = none := by
      rw [List.find?_eq_none]
      intro x hx
      simpa using hno x hx
    have hdef : GetAppByName a = AppConfigs.get ⟨2, by decide⟩ := by
      simp [GetAppByName, hf]
    rw [hdef]
    exact ⟨by decide, by decide⟩
  · intro e he
    by_cases hp : p = ""
    · subst hp
      rw [validateSessionProvider_empty] at he
      cases he
      exact message_ne_not_found_of_head (Char.ofNat 83)
        "ession provider is empty" a (by decide)
    · rw [validateSessionProvider_of_ne_empty p a d1 hp] at he
      unfold checkAllowed at he
      split at he
      · cases he
      · cases he
        have hm : (providerNotAllowed p a (GetAppByName a)).Message =
            String.mk (Char.ofNat 80 :: ("rovider '" ++ p ++ "' is not allowed for app '" ++ a ++
              "' (" ++ (GetAppByName a).DisplayName ++ "). Allowed providers: " ++
              stringsJoin (GetAppByName a).AuthMethods ", ").data) := by
          apply String.ext
          simp only [providerNotAllowed, String.data_append]
          rfl
        rw [hm]
        exact message_ne_not_found_of_head (Char.ofNat 80) _ a (by decide)

/-- An unregistered app name with a hint that names the account app is still judged
against the organisation entry: "github" is rejected whatever the hint. -/
theorem validateSessionProvider_hint_examples :
    ValidateSessionProvider "github" "portal" "account.hstles.com" =
        ValidateSessionProvider "github" "portal" "" ∧
      ValidateSessionProvider "github" "portal" "" ≠ none ∧
      ValidateSessionProvider "google" "portal" "account.hstles.com" = none := by
  refine ⟨by decide, by decide, by decide⟩

/-- C28: for every string `next`, `ValidateNextParameter` returns a nil error: the test
`appConfig.AppName != ""` before its final branch always succeeds, because
`GetAppByName` falls back to an entry whose `AppName` is non-empty. -/
theorem validateNextParameter_error_always_nil (parse : RequestURIParser) (next : String) :
    (ValidateNextParameter parse next).2 = none ∧ (GetAppByName next).AppName ≠ "" ∧
      ∀ msg, ValidateNextParameter parse next ≠ ((GetAppByRoute "/").GetURL, some msg) := by
  have herr : (ValidateNextParameter parse next).2 = none := by
    by_cases hne : next = ""
    · simp [ValidateNextParameter, hne]
    · cases hvalid : IsValidURL parse next with
      | true => simp [ValidateNextParameter, hne, hvalid]
      | false => rw [validateNextParameter_of_not_valid parse next hne hvalid]
  refine ⟨herr, getAppByName_appName_ne_empty next, ?_⟩
  intro msg h
  rw [h] at herr
  cases herr

/-- C29: for every provider `p` and app name `a`, `IsProviderAllowed p a` is true if and
only if `p` is an element of `GetAllowedProvidersForApp a`; both helpers resolve the
descriptor `GetAppByName a`. -/
theorem isProviderAllowed_iff_mem_allowed (p a : String) :
    (IsProviderAllowed p a = true ↔ p ∈ GetAllowedProvidersForApp a) ∧
      GetAllowedProvidersForApp a = (GetAppByName a).AuthMethods ∧
      (p ≠ "" → ValidateSessionProvider p a "" = checkAllowed p a (GetAppByName a)) := by
  refine ⟨?_, getAllowedProvidersForApp_eq a, validateSessionProvider_of_ne_empty p a ""⟩
  rw [isProviderAllowed_iff, getAllowedProvidersForApp_eq]
  constructor
  · exact fun h => h.2
  · intro h
    refine ⟨?_, h⟩
    intro hp
    subst hp
    exact appConfigs_authMethods_no_empty _ (getAppByName_mem a) h

/-! ## `SecurityMiddleware` -/

/-- The condition under which `SecurityMiddleware` allows the origin of a request: the
`Origin` header is non-empty, parses, has scheme "https", and its host name is the parent
domain or ends with "." followed by the parent domain. -/
theorem securityCors_eq (parse : URLParser) (parentDomain : String) (r : Request) :
    (r.HeaderGet "Origin" ≠ "" ∧ ∃ u, parse (r.HeaderGet "Origin") = some u ∧
        u.Scheme = "https" ∧
        (u.Hostname = parentDomain ∨
          stringsHasSuffix u.Hostname ("." ++ parentDomain) = true) ∧
        securityCors parse parentDomain r = corsHeaders (r.HeaderGet "Origin")) ∨
      (¬ (r.HeaderGet "Origin" ≠ "" ∧ ∃ u, parse (r.HeaderGet "Origin") = some u ∧
          u.Scheme = "https" ∧
          (u.Hostname = parentDomain ∨
            stringsHasSuffix u.Hostname ("." ++ parentDomain) = true)) ∧
        securityCors parse parentDomain r = []) := by
  unfold securityCors
  by_cases ho : r.HeaderGet "Origin" = ""
  · exact Or.inr ⟨fun h => h.1 ho, by simp [ho]⟩
  · cases hp : parse (r.HeaderGet "Origin") with
    | none => exact Or.inr ⟨fun h => by simp [hp] at h, by simp [ho, hp]⟩
    | some u =>
      by_cases hs : u.Scheme = "https"
      · by_cases hh : u.Hostname = parentDomain ∨
            stringsHasSuffix u.Hostname ("." ++ parentDomain) = true
        · exact Or.inl ⟨ho, u, rfl, hs, hh, by simp [ho, hp, hs, hh]⟩
        · refine Or.inr ⟨?_, by simp [ho, hp, hs, hh]⟩
          rintro ⟨_, u2, hu2, _, hh2⟩
          cases hu2
          exact hh hh2
      · refine Or.inr ⟨?_, by simp [ho, hp, hs]⟩
        rintro ⟨_, u2, hu2, hs2, _⟩
        cases hu2
        exact hs hs2

theorem securityMiddleware_header (parse : URLParser) (parentDomain : String)
    (next : Request → HandlerResult) (r : Request) :
    (SecurityMiddleware parse parentDomain next r).header =
      securityCors parse parentDomain r ++
        [("Content-Security-Policy", contentSecurityPolicy parentDomain)] := by
  unfold SecurityMiddleware
  split <;> rfl

/-- C23: for every parent domain and request, `SecurityMiddleware` sets
`Access-Control-Allow-Origin` if and only if the `Origin` header is non-empty, parses as a
URL with scheme "https", and its host name equals the parent domain or ends with "."
followed by the parent domain; it then sets the four CORS headers, the origin verbatim,
"true", "GET, POST, DELETE, OPTIONS" and "Content-Type"; otherwise the only header it sets
is `Content-Security-Policy`. -/
theorem securityMiddleware_cors (parse : URLParser) (parentDomain : String)
    (next : Request → HandlerResult) (r : Request) :
    ((∃ v, ("Access-Control-Allow-Origin", v) ∈
          (SecurityMiddleware parse parentDomain next r).header) ↔
        (r.HeaderGet "Origin" ≠ "" ∧ ∃ u, parse (r.HeaderGet "Origin") = some u ∧
          u.Scheme = "https" ∧
          (u.Hostname = parentDomain ∨
            stringsHasSuffix u.Hostname ("." ++ parentDomain) = true))) ∧
      ((∃ v, ("Access-Control-Allow-Origin", v) ∈
          (SecurityMiddleware parse parentDomain next r).header) →
        (SecurityMiddleware parse parentDomain next r).header =
          [("Access-Control-Allow-Origin", r.HeaderGet "Origin"),
           ("Access-Control-Allow-Credentials", "true"),
           ("Access-Control-Allow-Methods", "GET, POST, DELETE, OPTIONS"),
           ("Access-Control-Allow-Headers", "Content-Type"),
           ("Content-Security-Policy", contentSecurityPolicy parentDomain)]) ∧
      ((¬ ∃ v, ("Access-Control-Allow-Origin", v) ∈
          (SecurityMiddleware parse parentDomain next r).header) →
        (SecurityMiddleware parse parentDomain next r).header =
          [("Content-Security-Policy", contentSecurityPolicy parentDomain)]) := by
  rw [securityMiddleware_header]
  rcases securityCors_eq parse parentDomain r with ⟨ho, u, hu, hs, hh, hc⟩ | ⟨hnot, hc⟩
  · rw [hc]
    have hset : ∃ v, ("Access-Control-Allow-Origin", v) ∈
        corsHeaders (r.HeaderGet "Origin") ++
          [("Content-Security-Policy", contentSecurityPolicy parentDomain)] :=
      ⟨r.HeaderGet "Origin", by simp [corsHeaders]⟩
    exact ⟨⟨fun _ => ⟨ho, u, hu, hs, hh⟩, fun _ => hset⟩, fun _ => rfl,
      fun h => absurd hset h⟩
  · rw [hc]
    have hunset : ¬ ∃ v, ("Access-Control-Allow-Origin", v) ∈
        ([] : List (String × String)) ++
          [("Content-Security-Policy", contentSecurityPolicy parentDomain)] := by
      rintro ⟨v, hv⟩
      simp at hv
    exact ⟨⟨fun h => absurd h hunset, fun h => absurd h hnot⟩, fun h => absurd h hunset,
      fun _ => rfl⟩

/-- With parent domain "hstles.com": the origin https://sub.hstles.com is echoed, and for
https://attacker.com, http://sub.hstles.com and https://evilhstles.com no CORS header is
set. -/
theorem securityMiddleware_cors_examples :
    (SecurityMiddleware exampleURLParse "hstles.com" HandlerResult.next
        (originRequest "GET" "https://sub.hstles.com")).header =
        corsHeaders "https://sub.hstles.com" ++
          [("Content-Security-Policy", contentSecurityPolicy "hstles.com")] ∧
      (SecurityMiddleware exampleURLParse "hstles.com" HandlerResult.next
        (originRequest "GET" "https://attacker.com")).header =
        [("Content-Security-Policy", contentSecurityPolicy "hstles.com")] ∧
      (SecurityMiddleware exampleURLParse "hstles.com" HandlerResult.next
        (originRequest "GET" "http://sub.hstles.com")).header =
        [("Content-Security-Policy", contentSecurityPolicy "hstles.com")] ∧
      (SecurityMiddleware exampleURLParse "hstles.com" HandlerResult.next
        (originRequest "GET" "https://evilhstles.com")).header =
        [("Content-Security-Policy", contentSecurityPolicy "hstles.com")] :=
  ⟨rfl, rfl, rfl, rfl⟩

/-- C24: for every request, `SecurityMiddleware` sets the `Content-Security-Policy` header
to the fixed template of source lines 32-36 with the parent domain in its three places,
whatever the `Origin` header and the method, and to no other value; for the method OPTIONS
it answers 200 and does not invoke the next handler, and for every other method it invokes
the next handler, once, with the request. -/
theorem securityMiddleware_csp_and_preflight (parse : URLParser) (parentDomain : String)
    (next : Request → HandlerResult) (r : Request) :
    ("Content-Security-Policy",
        "default-src 'self' https://*." ++ parentDomain ++ "; " ++
          "img-src 'self' data:; " ++
          "font-src 'self' https://cdnjs.cloudflare.com https://fonts.gstatic.com; " ++
          "script-src 'self' https://*." ++ parentDomain ++
          " https://unpkg.com https://fonts.googleapis.com https://cdnjs.cloudflare.com 'unsafe-inline' 'unsafe-eval'; " ++
          "style-src 'self' https://*." ++ parentDomain ++
          " https://fonts.googleapis.com https://cdnjs.cloudflare.com 'unsafe-inline';") ∈
        (SecurityMiddleware parse parentDomain next r).header ∧
      (∀ v, ("Content-Security-Policy", v) ∈
          (SecurityMiddleware parse parentDomain next r).header →
        v = "default-src 'self' https://*." ++ parentDomain ++ "; " ++
          "img-src 'self' data:; " ++
          "font-src 'self' https://cdnjs.cloudflare.com https://fonts.gstatic.com; " ++
          "script-src 'self' https://*." ++ parentDomain ++
          " https://unpkg.com https://fonts.googleapis.com https://cdnjs.cloudflare.com 'unsafe-inline' 'unsafe-eval'; " ++
          "style-src 'self' https://*." ++ parentDomain ++
          " https://fonts.googleapis.com https://cdnjs.cloudflare.com 'unsafe-inline';") ∧
      (r.Method = "OPTIONS" →
        (SecurityMiddleware parse parentDomain next r).result =
          HandlerResult.response 200 "") ∧
      (r.Method ≠ "OPTIONS" →
        (SecurityMiddleware parse parentDomain next r).result = next r) := by
  have hcsp : "default-src 'self' https://*." ++ parentDomain ++ "; " ++
      "img-src 'self' data:; " ++
      "font-src 'self' https://cdnjs.cloudflare.com https://fonts.gstatic.com; " ++
      "script-src 'self' https://*." ++ parentDomain ++
      " https://unpkg.com https://fonts.googleapis.com https://cdnjs.cloudflare.com 'unsafe-inline' 'unsafe-eval'; " ++
      "style-src 'self' https://*." ++ parentDomain ++
      " https://fonts.googleapis.com https://cdnjs.cloudflare.com 'unsafe-inline';" =
      contentSecurityPolicy parentDomain := rfl
  rw [hcsp]
  refine ⟨?_, ?_, ?_, ?_⟩
  · rw [securityMiddleware_header]
    simp
  · intro v hv
    rw [securityMiddleware_header] at hv
    rcases securityCors_eq parse parentDomain r with ⟨_, _, _, _, _, hc⟩ | ⟨_, hc⟩
    · rw [hc] at hv
      simpa [corsHeaders] using hv
    · rw [hc] at hv
      simpa using hv
  · intro hm
    simp [SecurityMiddleware, MethodOptions, StatusOK, hm]
  · intro hm
    simp [SecurityMiddleware, MethodOptions, hm]

set_option maxRecDepth 4000 in
/-- The policy for the parent domain "hstles.com", and the two outcomes by method. -/
theorem securityMiddleware_csp_examples :
    contentSecurityPolicy "hstles.com" =
        "default-src 'self' https://*.hstles.com; img-src 'self' data:; font-src 'self' https://cdnjs.cloudflare.com https://fonts.gstatic.com; script-src 'self' https://*.hstles.com https://unpkg.com https://fonts.googleapis.com https://cdnjs.cloudflare.com 'unsafe-inline' 'unsafe-eval'; style-src 'self' https://*.hstles.com https://fonts.googleapis.com https://cdnjs.cloudflare.com 'unsafe-inline';" ∧
      (SecurityMiddleware exampleURLParse "hstles.com" HandlerResult.next
        (originRequest "OPTIONS" "https://attacker.com")).result =
        HandlerResult.response 200 "" ∧
      (SecurityMiddleware exampleURLParse "hstles.com" HandlerResult.next
        (originRequest "GET" "")).result = HandlerResult.next (originRequest "GET" "") :=
  ⟨rfl, rfl, rfl⟩

/-- C30: for every request whose method is not OPTIONS,
`SecurityWithProviderValidationMiddleware` invokes the next handler unless the context
carries session data with a non-empty provider that `ValidateSessionProvider` rejects for
the configured app, in which case it answers 403 and does not invoke the next handler; a
request without session data in its context, or with an empty provider, reaches the next
handler without a provider check. -/
theorem securityWithProviderValidation_behaviour (parse : URLParser)
    (parentDomain : String) (coreCfg : CoreConfig) (r : Request)
    (hmethod : r.Method ≠ "OPTIONS") :
    (∀ d e, GetSessionDataFromContext r.ctx = (d, true) → d.Provider ≠ "" →
        ValidateSessionProvider d.Provider coreCfg.AppName coreCfg.AppDomains = some e →
        (SecurityWithProviderValidationMiddleware parse parentDomain coreCfg r).result =
          HandlerResult.response 403 ("Access denied: " ++ e.Message ++ "\n")) ∧
      (∀ d, GetSessionDataFromContext r.ctx = (d, true) → d.Provider ≠ "" →
        ValidateSessionProvider d.Provider coreCfg.AppName coreCfg.AppDomains = none →
        (SecurityWithProviderValidationMiddleware parse parentDomain coreCfg r).result =
          HandlerResult.next r) ∧
      ((GetSessionDataFromContext r.ctx).2 = false →
        (SecurityWithProviderValidationMiddleware parse parentDomain coreCfg r).result =
          HandlerResult.next r) ∧
      ((GetSessionDataFromContext r.ctx).1.Provider = "" →
        (SecurityWithProviderValidationMiddleware parse parentDomain coreCfg r).result =
          HandlerResult.next r) := by
  have hres : (SecurityWithProviderValidationMiddleware parse parentDomain coreCfg r).result =
      providerValidationStep coreCfg r := by
    simp [SecurityWithProviderValidationMiddleware, SecurityMiddleware, MethodOptions, hmethod]
  rw [hres]
  refine ⟨?_, ?_, ?_, ?_⟩
  · intro d e hd hp hv
    simp [providerValidationStep, hd, hp, hv, httpError, StatusForbidden, bodyAllowedForStatus]
  · intro d hd hp hv
    simp [providerValidationStep, hd, hp, hv]
  · intro hno
    unfold providerValidationStep
    cases hg : GetSessionDataFromContext r.ctx with
    | mk d ok =>
      rw [hg] at hno
      simp only at hno
      simp [hno]
  · intro hp
    unfold providerValidationStep
    cases hg : GetSessionDataFromContext r.ctx with
    | mk d ok =>
      rw [hg] at hp
      simp only at hp
      simp [hp]

theorem securityWithProviderValidation_behaviour_witness :
    (sessionRequest { UserID := "u1", Provider := "email" }).Method ≠ "OPTIONS" ∧
      ((∀ d e, GetSessionDataFromContext
            (sessionRequest { UserID := "u1", Provider := "email" }).ctx = (d, true) →
          d.Provider ≠ "" →
          ValidateSessionProvider d.Provider "files" "" = some e →
          (SecurityWithProviderValidationMiddleware exampleURLParse "hstles.com"
            { AppName := "files", AppDomains := "", AppEnv := "production",
              TursoCoreDBURL := "", TursoAuthToken := "", TursoPlatformToken := "" }
            (sessionRequest { UserID := "u1", Provider := "email" })).result =
            HandlerResult.response 403 ("Access denied: " ++ e.Message ++ "\n")) ∧
        (∀ d, GetSessionDataFromContext
            (sessionRequest { UserID := "u1", Provider := "email" }).ctx = (d, true) →
          d.Provider ≠ "" →
          ValidateSessionProvider d.Provider "files" "" = none →
          (SecurityWithProviderValidationMiddleware exampleURLParse "hstles.com"
            { AppName := "files", AppDomains := "", AppEnv := "production",
              TursoCoreDBURL := "", TursoAuthToken := "", TursoPlatformToken := "" }
            (sessionRequest { UserID := "u1", Provider := "email" })).result =
            HandlerResult.next (sessionRequest { UserID := "u1", Provider := "email" })) ∧
        ((GetSessionDataFromContext
            (sessionRequest { UserID := "u1", Provider := "email" }).ctx).2 = false →
          (SecurityWithProviderValidationMiddleware exampleURLParse "hstles.com"
            { AppName := "files", AppDomains := "", AppEnv := "production",
              TursoCoreDBURL := "", TursoAuthToken := "", TursoPlatformToken := "" }
            (sessionRequest { UserID := "u1", Provider := "email" })).result =
            HandlerResult.next (sessionRequest { UserID := "u1", Provider := "email" })) ∧
        ((GetSessionDataFromContext
            (sessionRequest { UserID := "u1", Provider := "email" }).ctx).1.Provider = "" →
          (SecurityWithProviderValidationMiddleware exampleURLParse "hstles.com"
            { AppName := "files", AppDomains := "", AppEnv := "production",
              TursoCoreDBURL := "", TursoAuthToken := "", TursoPlatformToken := "" }
            (sessionRequest { UserID := "u1", Provider := "email" })).result =
            HandlerResult.next (sessionRequest { UserID := "u1", Provider := "email" }))) :=
  ⟨by decide,
    securityWithProviderValidation_behaviour exampleURLParse "hstles.com"
      { AppName := "files", AppDomains := "", AppEnv := "production",
        TursoCoreDBURL := "", TursoAuthToken := "", TursoPlatformToken := "" }
      (sessionRequest { UserID := "u1", Provider := "email" }) (by decide)⟩

/-- On the files app: "email" is answered 403, "github" passes, and a request without
session data or with an empty provider passes unchecked. -/
theorem securityWithProviderValidation_examples :
    (SecurityWithProviderValidationMiddleware exampleURLParse "hstles.com"
        { AppName := "files", AppDomains := "", AppEnv := "production",
          TursoCoreDBURL := "", TursoAuthToken := "", TursoPlatformToken := "" }
        (sessionRequest { UserID := "u1", Provider := "email" })).result =
        HandlerResult.response 403
          "Access denied: Provider 'email' is not allowed for app 'files' (Files). Allowed providers: google, microsoftonline, github\n" ∧
      (SecurityWithProviderValidationMiddleware exampleURLParse "hstles.com"
        { AppName := "files", AppDomains := "", AppEnv := "production",
          TursoCoreDBURL := "", TursoAuthToken := "", TursoPlatformToken := "" }
        (sessionRequest { UserID := "u1", Provider := "github" })).result =
        HandlerResult.next (sessionRequest { UserID := "u1", Provider := "github" }) ∧
      (SecurityWithProviderValidationMiddleware exampleURLParse "hstles.com"
        { AppName := "files", AppDomains := "", AppEnv := "production",
          TursoCoreDBURL := "", TursoAuthToken := "", TursoPlatformToken := "" }
        (originRequest "GET" "")).result = HandlerResult.next (originRequest "GET" "") ∧
      (SecurityWithProviderValidationMiddleware exampleURLParse "hstles.com"
        { AppName := "files", AppDomains := "", AppEnv := "production",
          TursoCoreDBURL := "", TursoAuthToken := "", TursoPlatformToken := "" }
        (sessionRequest { UserID := "u1", Provider := "" })).result =
        HandlerResult.next (sessionRequest { UserID := "u1", Provider := "" }) :=
  ⟨rfl, rfl, rfl, rfl⟩

/-! ## `LoadSecurityConfig` and the proxy handlers -/

theorem mem_loadAPIKey (getenv : String → String) (envVar service : String)
    (apiKeys : List (String × String)) (s k : String) :
    (s, k) ∈ loadAPIKey getenv envVar service apiKeys ↔
      (s, k) ∈ apiKeys ∨ (s = service ∧ k = getenv envVar ∧ k ≠ "") := by
  unfold loadAPIKey
  by_cases h : getenv envVar = ""
  · simp only [h, ne_eq, not_true_eq_false, if_false]
    constructor
    · exact fun hm => Or.inl hm
    · rintro (hm | ⟨_, hk, hne⟩)
      · exact hm
      · exact absurd hk hne
  · simp only [ne_eq, h, not_false_eq_true, if_true, List.mem_append, List.mem_singleton,
      Prod.mk.injEq]
    constructor
    · rintro (hm | ⟨hs, hk⟩)
      · exact Or.inl hm
      · exact Or.inr ⟨hs, hk, by rw [hk]; exact h⟩
    · rintro (hm | ⟨hs, hk, _⟩)
      · exact Or.inl hm
      · exact Or.inr ⟨hs, hk⟩

theorem mem_loadSecurityConfig (getenv : String → String) (s k : String) :
    (s, k) ∈ (LoadSecurityConfig getenv).APIKeys ↔
      (s = "auth" ∧ k = getenv "AUTH_SERVICE_API_KEY" ∧ k ≠ "") ∨
      (s = "identity" ∧ k = getenv "IDENTITY_SERVICE_API_KEY" ∧ k ≠ "") ∨
      (s = "notify" ∧ k = getenv "NOTIFY_SERVICE_API_KEY" ∧ k ≠ "") ∨
      (s = "account" ∧ k = getenv "ACCOUNT_SERVICE_API_KEY" ∧ k ≠ "") := by
  simp only [LoadSecurityConfig, mem_loadAPIKey, List.not_mem_nil, false_or, or_assoc]

/-- C25: for every environment, the API-key table built by `LoadSecurityConfig` has the
entry `(s, k)` if and only if `s` is one of auth, identity, notify, account, `k` is the
value of the variable `<S>_SERVICE_API_KEY` and `k` is non-empty; the table holds no
empty key, no empty service name, no other service name, and at most one key per name. -/
theorem loadSecurityConfig_apiKeys (getenv : String → String) (s k : String) :
    ((s, k) ∈ (LoadSecurityConfig getenv).APIKeys ↔
        k ≠ "" ∧
          ((s = "auth" ∧ k = getenv "AUTH_SERVICE_API_KEY") ∨
            (s = "identity" ∧ k = getenv "IDENTITY_SERVICE_API_KEY") ∨
            (s = "notify" ∧ k = getenv "NOTIFY_SERVICE_API_KEY") ∨
            (s = "account" ∧ k = getenv "ACCOUNT_SERVICE_API_KEY"))) ∧
      ((s, k) ∈ (LoadSecurityConfig getenv).APIKeys →
        k ≠ "" ∧ s ≠ "" ∧ s ∈ ["auth", "identity", "notify", "account"]) ∧
      (∀ k2, (s, k) ∈ (LoadSecurityConfig getenv).APIKeys →
        (s, k2) ∈ (LoadSecurityConfig getenv).APIKeys → k = k2) := by
  refine ⟨?_, ?_, ?_⟩
  · rw [mem_loadSecurityConfig]
    constructor
    · rintro (⟨hs, hk, hne⟩ | ⟨hs, hk, hne⟩ | ⟨hs, hk, hne⟩ | ⟨hs, hk, hne⟩)
      · exact ⟨hne, Or.inl ⟨hs, hk⟩⟩
      · exact ⟨hne, Or.inr (Or.inl ⟨hs, hk⟩)⟩
      · exact ⟨hne, Or.inr (Or.inr (Or.inl ⟨hs, hk⟩))⟩
      · exact ⟨hne, Or.inr (Or.inr (Or.inr ⟨hs, hk⟩))⟩
    · rintro ⟨hne, ⟨hs, hk⟩ | ⟨hs, hk⟩ | ⟨hs, hk⟩ | ⟨hs, hk⟩⟩
      · exact Or.inl ⟨hs, hk, hne⟩
      · exact Or.inr (Or.inl ⟨hs, hk, hne⟩)
      · exact Or.inr (Or.inr (Or.inl ⟨hs, hk, hne⟩))
      · exact Or.inr (Or.inr (Or.inr ⟨hs, hk, hne⟩))
  · rw [mem_loadSecurityConfig]
    rintro (⟨hs, _, hne⟩ | ⟨hs, _, hne⟩ | ⟨hs, _, hne⟩ | ⟨hs, _, hne⟩) <;>
      · subst hs
        exact ⟨hne, by decide, by decide⟩
  · intro k2
    rw [mem_loadSecurityConfig, mem_loadSecurityConfig]
    rintro (⟨hs, hk, _⟩ | ⟨hs, hk, _⟩ | ⟨hs, hk, _⟩ | ⟨hs, hk, _⟩) <;>
      · subst hs
        rintro (⟨hs2, hk2, _⟩ | ⟨hs2, hk2, _⟩ | ⟨hs2, hk2, _⟩ | ⟨hs2, hk2, _⟩)
        all_goals first
          | exact hk.trans hk2.symm
          | exact absurd hs2 (by decide)

/-- With only the notify key set, the table is the single entry for "notify". -/
theorem loadSecurityConfig_example :
    (LoadSecurityConfig exampleEnv).APIKeys = [("notify", "k-notify")] ∧
      (LoadSecurityConfig exampleEnv).AuthServiceURL = "http://localhost:8081" ∧
      (LoadSecurityConfig exampleEnv).LoginServiceURL = "https://login.hstles.com" := by
  refine ⟨by decide, by decide, by decide⟩

/-- C26 (as stated) fails: when the identity service answers 404 with a body that does not
decode, `Client.Health` reports the status 404 with the error, and `HealthHandler` answers
the caller with 500. -/
theorem healthHandler_decode_failure_counterexample :
    Health (HealthReply.undecodable 404 HealthResponse.zero
        "invalid character '<' looking for beginning of value") =
        (HealthResponse.zero, 404,
          some "invalid character '<' looking for beginning of value") ∧
      HealthHandler (fun resp => resp.Status)
        (HealthReply.undecodable 404 HealthResponse.zero
          "invalid character '<' looking for beginning of value") =
        HandlerResult.response 500
          "invalid character '<' looking for beginning of value\n" :=
  ⟨rfl, rfl⟩

/-- The handler `ValidateSessionHandler` of `client_auth` and the handler `HealthHandler`
of `client_identity` are instances of the shapes shared by the handlers of their
packages. -/
theorem citedHandlers_are_instances (encodeSession : SessionResponse → String)
    (encodeHealth : HealthResponse → String) (service : AuthService) (r : Request)
    (reply : HealthReply) :
    ValidateSessionHandler encodeSession service r =
        authProxyHandler (fun resp code => writeJSON code (encodeSession resp))
          (ValidateSession service r.Cookies) ∧
      HealthHandler encodeHealth reply =
        identityProxyHandler (fun resp code => writeJSON code (encodeHealth resp))
          (Health reply) := by
  constructor
  · unfold ValidateSessionHandler authProxyHandler
    rcases ValidateSession service r.Cookies with ⟨resp, code, _ | err⟩ <;> rfl
  · unfold HealthHandler identityProxyHandler
    rcases Health reply with ⟨resp, code, _ | err⟩ <;> rfl

theorem httpError_of_status (err : String) (status : Int) (hlow : 200 ≤ status)
    (hhigh : status ≤ 999) :
    httpError err status =
      HandlerResult.response status
        (if status = 204 ∨ status = 304 then "" else err ++ "\n") := by
  have h1 : ¬ (status < 100 ∨ status > 999) := by omega
  have h2 : ¬ (100 ≤ status ∧ status ≤ 199) := by omega
  by_cases h204 : status = 204
  · simp [httpError, bodyAllowedForStatus, h204]
  · by_cases h304 : status = 304
    · simp [httpError, bodyAllowedForStatus, h304]
    · simp [httpError, bodyAllowedForStatus, h1, h2, h204, h304]

theorem httpError_internalServerError (err : String) :
    httpError err StatusInternalServerError = HandlerResult.response 500 (err ++ "\n") := by
  simp [httpError, StatusInternalServerError, bodyAllowedForStatus]

/-- C26 (amended): for every handler of `client_auth` (any response type, any way of
writing the success response), when the remote call returned an HTTP status code from 200
to 999 but its body failed to decode, the handler answers the caller with that upstream
status code, with the decode error as body unless the status (204, 304) allows none; every
handler of `client_identity` answers every error of the remote call, transport errors
and decode failures alike, with 500 and the error as body. The same holds of the two
handlers `ValidateSessionHandler` and `HealthHandler` as they are written. -/
theorem proxyHandlers_decode_failure (α β : Type) (writeAuth : α → Int → HandlerResult)
    (writeIdentity : β → Int → HandlerResult) (zeroAuth : α) (zeroIdentity : β)
    (status : Int) (respAuth : α) (err : String)
    (hlow : 200 ≤ status) (hhigh : status ≤ 999) :
    authProxyHandler writeAuth (clientCall zeroAuth (Reply.undecodable status respAuth err)) =
        HandlerResult.response status
          (if status = 204 ∨ status = 304 then "" else err ++ "\n") ∧
      (∀ (reply : Reply β) (e : String), (clientCall zeroIdentity reply).2.2 = some e →
        identityProxyHandler writeIdentity (clientCall zeroIdentity reply) =
          HandlerResult.response 500 (e ++ "\n")) ∧
      (∀ (encode : SessionResponse → String) (service : AuthService) (r : Request)
          (resp : SessionResponse),
        service r.Cookies = RemoteReply.undecodable status resp err →
        ValidateSessionHandler encode service r =
          HandlerResult.response status
            (if status = 204 ∨ status = 304 then "" else err ++ "\n")) ∧
      (∀ (encode : HealthResponse → String) (reply : HealthReply) (e : String),
        (Health reply).2.2 = some e →
        HealthHandler encode reply = HandlerResult.response 500 (e ++ "\n")) := by
  refine ⟨?_, ?_, ?_, ?_⟩
  · simp only [clientCall, authProxyHandler]
    exact httpError_of_status err status hlow hhigh
  · intro reply e he
    cases reply with
    | transportError err2 =>
      simp only [clientCall, Option.some.injEq] at he
      simp only [clientCall, identityProxyHandler, he]
      exact httpError_internalServerError e
    | undecodable status2 resp2 err2 =>
      simp only [clientCall, Option.some.injEq] at he
      simp only [clientCall, identityProxyHandler, he]
      exact httpError_internalServerError e
    | decoded status2 resp2 => simp [clientCall] at he
  · intro encode service r resp hreply
    simp only [ValidateSessionHandler, ValidateSession, hreply]
    exact httpError_of_status err status hlow hhigh
  · intro encode reply e he
    cases reply with
    | transportError err2 =>
      simp only [Health, Option.some.injEq] at he
      simp only [HealthHandler, Health, he]
      exact httpError_internalServerError e
    | undecodable status2 resp2 err2 =>
      simp only [Health, Option.some.injEq] at he
      simp only [HealthHandler, Health, he]
      exact httpError_internalServerError e
    | decoded status2 resp2 => simp [Health] at he

theorem proxyHandlers_decode_failure_witness :
    ((200 : Int) ≤ 404 ∧ (404 : Int) ≤ 999) ∧
      (authProxyHandler (fun (resp : SessionResponse) code => writeJSON code resp.UserID)
          (clientCall SessionResponse.zero
            (Reply.undecodable 404 SessionResponse.zero "unexpected EOF")) =
          HandlerResult.response 404
            (if (404 : Int) = 204 ∨ (404 : Int) = 304 then "" else "unexpected EOF" ++ "\n") ∧
        (∀ (reply : Reply HealthResponse) (e : String),
          (clientCall HealthResponse.zero reply).2.2 = some e →
          identityProxyHandler (fun (resp : HealthResponse) code => writeJSON code resp.Status)
              (clientCall HealthResponse.zero reply) =
            HandlerResult.response 500 (e ++ "\n")) ∧
        (∀ (encode : SessionResponse → String) (service : AuthService) (r : Request)
            (resp : SessionResponse),
          service r.Cookies = RemoteReply.undecodable 404 resp "unexpected EOF" →
          ValidateSessionHandler encode service r =
            HandlerResult.response 404
              (if (404 : Int) = 204 ∨ (404 : Int) = 304 then ""
                else "unexpected EOF" ++ "\n")) ∧
        (∀ (encode : HealthResponse → String) (reply : HealthReply) (e : String),
          (Health reply).2.2 = some e →
          HealthHandler encode reply = HandlerResult.response 500 (e ++ "\n"))) :=
  ⟨⟨by decide, by decide⟩,
    proxyHandlers_decode_failure SessionResponse HealthResponse
      (fun resp code => writeJSON code resp.UserID)
      (fun resp code => writeJSON code resp.Status)
      SessionResponse.zero HealthResponse.zero 404 SessionResponse.zero "unexpected EOF"
      (by decide) (by decide)⟩

/-- The handlers at an upstream 404 with a body that does not decode: `client_auth`
answers 404, `client_identity` 500; and at an upstream 204: `client_auth` answers 204
without a body. -/
theorem proxyHandlers_examples :
    ValidateSessionHandler (fun resp => resp.UserID)
        (fun _ => RemoteReply.undecodable 404 SessionResponse.zero "unexpected EOF")
        (sampleRequest "" []) = HandlerResult.response 404 "unexpected EOF\n" ∧
      HealthHandler (fun resp => resp.Status)
        (HealthReply.undecodable 404 HealthResponse.zero "unexpected EOF") =
        HandlerResult.response 500 "unexpected EOF\n" ∧
      HealthHandler (fun resp => resp.Status)
        (HealthReply.transportError "dial tcp: connection refused") =
        HandlerResult.response 500 "dial tcp: connection refused\n" ∧
      ValidateSessionHandler (fun resp => resp.UserID)
        (fun _ => RemoteReply.undecodable 204 SessionResponse.zero "EOF")
        (sampleRequest "" []) = HandlerResult.response 204 "" :=
  ⟨rfl, rfl, rfl, rfl⟩

end GoSdk
